import Mathlib

/-!
# Verification of the `nvgpu` collector (`src/unnamed/part_000`)

A shallow embedding of the NVIDIA GPU collector of this node_exporter fork.
The device-access library (go-nvml) is modelled as an oracle structure
`Nvml` whose every query returns a `(value, Ret)` pair; `update` is a
direct translation of the richer `Update` method, producing the sequence
of device-access calls issued, the sequence of emitted metric
observations, and the poll's optional error.  Gauge values that the Go
code converts with `float64(·)` from integral driver values are kept as
`Nat` (the conversions in scope are on integral data; no claim depends on
floating-point rounding).  The `defer nvml.Shutdown()` is modelled by
appending the shutdown call on every exit path taken after a successful
`nvml.Init()`, with the result of the shutdown unable to influence the
poll's outcome, exactly as a Go deferred closure that only logs.
-/

set_option autoImplicit false

namespace NvGpu

/-- nvml return status: `SUCCESS`, `ERROR_NOT_SUPPORTED`, or any other
error code (carried as a numeric code). -/
inductive Ret where
  | success
  | errNotSupported
  | errOther (code : Nat)
  deriving DecidableEq, Repr

/-- Model of `nvml.ErrorString`: a human-readable string for a status. -/
def errorString : Ret → String
  | Ret.success => "SUCCESS"
  | Ret.errNotSupported => "ERROR_NOT_SUPPORTED"
  | Ret.errOther c => "UNKNOWN ERROR " ++ toString c

/-- A device handle (`nvml.Device`), opaque to the collector. -/
abbrev Device := Nat

/- nvml enum constants used by the collector, with the values of the
go-nvml bindings (which mirror the NVML C headers). -/

def BUS_TYPE_UNKNOWN : Int := 0
def BUS_TYPE_PCI : Int := 1
def BUS_TYPE_PCIE : Int := 2
def BUS_TYPE_FPCI : Int := 3
def BUS_TYPE_AGP : Int := 4

def CLOCK_GRAPHICS : Int := 0
def CLOCK_SM : Int := 1
def CLOCK_MEM : Int := 2
def CLOCK_VIDEO : Int := 3
/-- `nvml.CLOCK_COUNT`: number of clock-domain codes iterated by the collector. -/
def CLOCK_COUNT : Nat := 4

def CLOCK_ID_CURRENT : Int := 0
def CLOCK_ID_APP_CLOCK_TARGET : Int := 1
def CLOCK_ID_APP_CLOCK_DEFAULT : Int := 2
def CLOCK_ID_CUSTOMER_BOOST_MAX : Int := 3
/-- `nvml.CLOCK_ID_COUNT`: number of clock-source codes iterated by the collector. -/
def CLOCK_ID_COUNT : Nat := 4

def COMPUTEMODE_DEFAULT : Int := 0
def COMPUTEMODE_EXCLUSIVE_THREAD : Int := 1
def COMPUTEMODE_PROHIBITED : Int := 2
def COMPUTEMODE_EXCLUSIVE_PROCESS : Int := 3

def PSTATE_UNKNOWN : Int := 32

def FEATURE_DISABLED : Int := 0
def FEATURE_ENABLED : Int := 1

def TEMPERATURE_GPU : Int := 0
/-- `nvml.TEMPERATURE_COUNT`: number of temperature sensor-slot codes. -/
def TEMPERATURE_COUNT : Nat := 1

/-- `getBusTypeString` of the source: bus-connection category to label. -/
def getBusTypeString (busT : Int) : String :=
  if busT = BUS_TYPE_AGP then "AGP"
  else if busT = BUS_TYPE_FPCI then "FPCI"
  else if busT = BUS_TYPE_PCI then "PCI"
  else if busT = BUS_TYPE_PCIE then "PCIE"
  else if busT = BUS_TYPE_UNKNOWN then "UNKNOWN"
  else "UNKNOWN"

/-- `getClockTypeString` of the source: clock-domain code to label. -/
def getClockTypeString (typeN : Int) : String :=
  if typeN = CLOCK_GRAPHICS then "GRAPHICS"
  else if typeN = CLOCK_SM then "SM"
  else if typeN = CLOCK_MEM then "MEM"
  else if typeN = CLOCK_VIDEO then "VIDEO"
  else "UNKNOWN"

/-- `getClockIDString` of the source: clock-source code to label. -/
def getClockIDString (typeN : Int) : String :=
  if typeN = CLOCK_ID_CURRENT then "CURRENT"
  else if typeN = CLOCK_ID_APP_CLOCK_TARGET then "APP CLOCK TARGET"
  else if typeN = CLOCK_ID_APP_CLOCK_DEFAULT then "APP CLOCK DEFAULT"
  else if typeN = CLOCK_ID_CUSTOMER_BOOST_MAX then "CUSTOMER BOOST MAX"
  else "UNKNOWN"

/-- `getComputeModeString` of the source: compute-mode code to label. -/
def getComputeModeString (modeN : Int) : String :=
  if modeN = COMPUTEMODE_DEFAULT then "DEFAULT"
  else if modeN = COMPUTEMODE_EXCLUSIVE_THREAD then "EXCLUSIVE THREAD"
  else if modeN = COMPUTEMODE_PROHIBITED then "PROHIBITED"
  else if modeN = COMPUTEMODE_EXCLUSIVE_PROCESS then "EXCLUSIVE PROCESS"
  else "UNKNOWN"

/-- `getPstatesString` of the source: any code other than
`PSTATE_UNKNOWN` is formatted `P%d`; `PSTATE_UNKNOWN` yields `UNKNOWN`. -/
def getPstatesString (stateN : Int) : String :=
  if PSTATE_UNKNOWN ≠ stateN then "P" ++ toString stateN
  else "UNKNOWN"

/-- `getPersisModeString` of the source: `FEATURE_DISABLED` is `OFF`,
every other code is `ON`. -/
def getPersisModeString (stateN : Int) : String :=
  if stateN = FEATURE_DISABLED then "OFF" else "ON"

/-- `getTemperatureSensorString` of the source: sensor-slot code to label. -/
def getTemperatureSensorString (tempN : Int) : String :=
  if tempN = TEMPERATURE_GPU then "GPU" else "UNKNOWN"

/-- The derived CUDA-equivalent version string of `Update`:
`fmt.Sprintf("%d.%d", cudaVI/1000, cudaVI%1000/10)` with Go's
truncated (toward zero) integer division and remainder. -/
def cudaVersionString (cudaVI : Int) : String :=
  toString (Int.tdiv cudaVI 1000) ++ "." ++ toString (Int.tdiv (Int.tmod cudaVI 1000) 10)

/-- Metric-family descriptors of the collector (`prometheus.Desc` fields). -/
inductive Desc where
  | sysinfo
  | gpuinfo
  | appclk
  | clk
  | computeMode
  | perf
  | persisMode
  | util
  | minFanSpeed
  | maxFanSpeed
  | fanSpeed
  | temp
  | powerUsage
  | powerEnforceLimit
  | memTotal
  | memUsed
  | memFree
  deriving DecidableEq, Repr

/-- One emitted observation: descriptor, gauge value, ordered label values. -/
structure Metric where
  desc : Desc
  value : Nat
  labels : List String
  deriving DecidableEq, Repr

/-- One call into the device-access library, with its arguments. -/
inductive NvCall where
  | nvInit
  | shutdown
  | deviceGetCount
  | deviceGetHandleByIndex (i : Nat)
  | systemGetDriverVersion
  | systemGetCudaDriverVersion
  | systemGetNVMLVersion
  | getUUID (d : Device)
  | getName (d : Device)
  | getBusType (d : Device)
  | getNumFans (d : Device)
  | getMinMaxFanSpeed (d : Device)
  | getFanSpeed (d : Device) (f : Nat)
  | getApplicationsClock (d : Device) (t : Nat)
  | getClock (d : Device) (t : Nat) (tt : Nat)
  | getComputeMode (d : Device)
  | getPerformanceState (d : Device)
  | getPersistenceMode (d : Device)
  | getUtilizationRates (d : Device)
  | getTemperature (d : Device) (t : Nat)
  | getPowerUsage (d : Device)
  | getEnforcedPowerLimit (d : Device)
  | getMemoryInfo (d : Device)
  deriving DecidableEq, Repr

/-- The three per-family enable flags of the collector. -/
structure Flags where
  sysinfo : Bool
  gpuinfo : Bool
  fan : Bool
  deriving DecidableEq, Repr

/-- Oracle model of the device-access library: the response each call
would produce during one poll. -/
structure Nvml where
  nvInit : Ret
  shutdown : Ret
  deviceGetCount : Nat × Ret
  deviceGetHandleByIndex : Nat → Device × Ret
  systemGetDriverVersion : String × Ret
  systemGetCudaDriverVersion : Int × Ret
  systemGetNVMLVersion : String × Ret
  getUUID : Device → String × Ret
  getName : Device → String × Ret
  getBusType : Device → Int × Ret
  getNumFans : Device → Int × Ret
  getMinMaxFanSpeed : Device → Nat × Nat × Ret
  getFanSpeed : Device → Nat → Nat × Ret
  getApplicationsClock : Device → Nat → Nat × Ret
  getClock : Device → Nat → Nat → Nat × Ret
  getComputeMode : Device → Int × Ret
  getPerformanceState : Device → Int × Ret
  getPersistenceMode : Device → Int × Ret
  getUtilizationRates : Device → (Nat × Nat) × Ret
  getTemperature : Device → Nat → Nat × Ret
  getPowerUsage : Device → Nat × Ret
  getEnforcedPowerLimit : Device → Nat × Ret
  getMemoryInfo : Device → (Nat × Nat × Nat) × Ret

/-- Result of (a fragment of) one poll: calls issued, metrics emitted on
the channel, and the error returned (`none` = nil error). -/
abbrev PollResult := List NvCall × List Metric × Option String

/-- Sequencing of two poll fragments: Go's straight-line control flow —
the second fragment runs only when the first did not return an error. -/
def pstep (a b : PollResult) : PollResult :=
  match a with
  | (cs, ms, some e) => (cs, ms, some e)
  | (cs, ms, none) =>
      match b with
      | (cs2, ms2, e2) => (cs ++ cs2, ms ++ ms2, e2)

/-- The `*enableNVGPUSysInfo` block of `Update`: driver version, packed
CUDA version, NVML version; one `sysinfo` observation of value 1. -/
def sysInfoBlock (o : Nvml) : PollResult :=
  let dv := o.systemGetDriverVersion
  if dv.2 ≠ Ret.success then
    ([NvCall.systemGetDriverVersion], [],
      some ("unable to Get NVIDIA System Driver Version: " ++ errorString dv.2))
  else
    let cv := o.systemGetCudaDriverVersion
    if cv.2 ≠ Ret.success then
      ([NvCall.systemGetDriverVersion, NvCall.systemGetCudaDriverVersion], [],
        some ("unable to Get NVIDIA CUDA Driver Version: " ++ errorString cv.2))
    else
      let nv := o.systemGetNVMLVersion
      if nv.2 ≠ Ret.success then
        ([NvCall.systemGetDriverVersion, NvCall.systemGetCudaDriverVersion,
          NvCall.systemGetNVMLVersion], [],
          some ("unable to Get NVIDIA NVML Version: " ++ errorString nv.2))
      else
        ([NvCall.systemGetDriverVersion, NvCall.systemGetCudaDriverVersion,
          NvCall.systemGetNVMLVersion],
          [⟨Desc.sysinfo, 1, [dv.1, cudaVersionString cv.1, nv.1]⟩], none)

/-- The `*enableNVGPUInfo` block of `Update`: uuid, name, bus type; one
`gpuinfo` observation of value 1. -/
def gpuInfoBlock (o : Nvml) (index : String) (d : Device) : PollResult :=
  let u := o.getUUID d
  if u.2 ≠ Ret.success then
    ([NvCall.getUUID d], [],
      some ("unable to get GPU " ++ index ++ " UUID: " ++ errorString u.2))
  else
    let n := o.getName d
    if n.2 ≠ Ret.success then
      ([NvCall.getUUID d, NvCall.getName d], [],
        some ("unable to get GPU " ++ index ++ " NAME: " ++ errorString n.2))
    else
      let b := o.getBusType d
      if b.2 ≠ Ret.success then
        ([NvCall.getUUID d, NvCall.getName d, NvCall.getBusType d], [],
          some ("unable to get GPU " ++ index ++ " BUS Type: " ++ errorString b.2))
      else
        ([NvCall.getUUID d, NvCall.getName d, NvCall.getBusType d],
          [⟨Desc.gpuinfo, 1, [index, u.1, n.1, getBusTypeString b.1]⟩], none)

/-- The inner `for f` loop of the fan block: for each fan index, query
its speed and emit min, max, and current fan-speed observations (min and
max are re-emitted inside each iteration, as in the source). `f` is the
current fan index, the second argument the remaining iteration count. -/
def fanLoop (o : Nvml) (index : String) (d : Device)
    (minFanSpeed maxFanSpeed : Nat) (f : Nat) : Nat → PollResult
  | 0 => ([], [], none)
  | n + 1 =>
    let fs := o.getFanSpeed d f
    if fs.2 ≠ Ret.success then
      ([NvCall.getFanSpeed d f], [],
        some ("unable to get GPU " ++ index ++ " Fan " ++ toString f ++
          " Speed: " ++ errorString fs.2))
    else
      let rest := fanLoop o index d minFanSpeed maxFanSpeed (f + 1) n
      (NvCall.getFanSpeed d f :: rest.1,
        ⟨Desc.minFanSpeed, minFanSpeed, [index]⟩ ::
        ⟨Desc.maxFanSpeed, maxFanSpeed, [index]⟩ ::
        ⟨Desc.fanSpeed, fs.1, [index, toString f]⟩ :: rest.2.1, rest.2.2)

/-- The `*enableNVGPUFan` block of `Update`: fan count, then min/max
speed once, then the per-fan loop; zero fans only logs. -/
def fanBlock (o : Nvml) (index : String) (d : Device) : PollResult :=
  let fn := o.getNumFans d
  if fn.2 ≠ Ret.success then
    ([NvCall.getNumFans d], [],
      some ("unable to get GPU " ++ index ++ " Fan info: " ++ errorString fn.2))
  else if fn.1 > 0 then
    let mm := o.getMinMaxFanSpeed d
    if mm.2.2 ≠ Ret.success then
      ([NvCall.getNumFans d, NvCall.getMinMaxFanSpeed d], [],
        some ("unable to get GPU " ++ index ++ " Fan Min/Max Speed: " ++
          errorString mm.2.2))
    else
      let rest := fanLoop o index d mm.1 mm.2.1 0 fn.1.toNat
      (NvCall.getNumFans d :: NvCall.getMinMaxFanSpeed d :: rest.1,
        rest.2.1, rest.2.2)
  else
    ([NvCall.getNumFans d], [], none)

/-- One applications-clock query of the clock block: `NOT_SUPPORTED` is
soft-skipped, success emits one `appclk` observation, anything else is a
hard error. -/
def appClkStep (o : Nvml) (index : String) (d : Device) (t : Nat) : PollResult :=
  let ac := o.getApplicationsClock d t
  match ac.2 with
  | Ret.errNotSupported => ([NvCall.getApplicationsClock d t], [], none)
  | Ret.success =>
      ([NvCall.getApplicationsClock d t],
        [⟨Desc.appclk, ac.1, [index, getClockTypeString (t : Int)]⟩], none)
  | Ret.errOther c =>
      ([NvCall.getApplicationsClock d t], [],
        some ("unable to get GPU " ++ index ++ " Applications Clock Type " ++
          getClockTypeString (t : Int) ++ " Info: " ++ errorString (Ret.errOther c)))

/-- One clock query for a (domain, clock-source) pair, with the same
soft-skip on `NOT_SUPPORTED` / hard-fail otherwise policy. -/
def clkStep (o : Nvml) (index : String) (d : Device) (t tt : Nat) : PollResult :=
  let ck := o.getClock d t tt
  match ck.2 with
  | Ret.errNotSupported => ([NvCall.getClock d t tt], [], none)
  | Ret.success =>
      ([NvCall.getClock d t tt],
        [⟨Desc.clk, ck.1, [index, getClockTypeString (t : Int),
          getClockIDString (tt : Int)]⟩], none)
  | Ret.errOther c =>
      ([NvCall.getClock d t tt], [],
        some ("unable to get GPU " ++ index ++ " Clock Type " ++
          getClockTypeString (t : Int) ++ " ID " ++ getClockIDString (tt : Int) ++
          " Info: " ++ errorString (Ret.errOther c)))

/-- The inner `for tt` loop over clock-source codes. -/
def clkIdLoop (o : Nvml) (index : String) (d : Device) (t : Nat) (tt : Nat) :
    Nat → PollResult
  | 0 => ([], [], none)
  | n + 1 => pstep (clkStep o index d t tt) (clkIdLoop o index d t (tt + 1) n)

/-- One iteration of the outer `for t` loop: the applications-clock query
followed by the clock-source loop. -/
def clockTypeStep (o : Nvml) (index : String) (d : Device) (t : Nat) : PollResult :=
  pstep (appClkStep o index d t) (clkIdLoop o index d t 0 CLOCK_ID_COUNT)

/-- The outer `for t` loop over clock-domain codes. -/
def clockTypeLoop (o : Nvml) (index : String) (d : Device) (t : Nat) :
    Nat → PollResult
  | 0 => ([], [], none)
  | n + 1 => pstep (clockTypeStep o index d t) (clockTypeLoop o index d (t + 1) n)

/-- The clock block of `Update`. -/
def clockBlock (o : Nvml) (index : String) (d : Device) : PollResult :=
  clockTypeLoop o index d 0 CLOCK_COUNT

/-- The compute-mode block of `Update`: value-1 gauge labeled with the
mapped compute-mode string; any error is hard. -/
def computeModeBlock (o : Nvml) (index : String) (d : Device) : PollResult :=
  let cm := o.getComputeMode d
  if cm.2 ≠ Ret.success then
    ([NvCall.getComputeMode d], [],
      some ("unable to get GPU " ++ index ++ " Compute Mode Info: " ++
        errorString cm.2))
  else
    ([NvCall.getComputeMode d],
      [⟨Desc.computeMode, 1, [index, getComputeModeString cm.1]⟩], none)

/-- The performance-state block of `Update`. -/
def perfBlock (o : Nvml) (index : String) (d : Device) : PollResult :=
  let ps := o.getPerformanceState d
  if ps.2 ≠ Ret.success then
    ([NvCall.getPerformanceState d], [],
      some ("unable to get GPU " ++ index ++ " Performance State Info: " ++
        errorString ps.2))
  else
    ([NvCall.getPerformanceState d],
      [⟨Desc.perf, 1, [index, getPstatesString ps.1]⟩], none)

/-- The persistence-mode block of `Update`. -/
def persisModeBlock (o : Nvml) (index : String) (d : Device) : PollResult :=
  let pm := o.getPersistenceMode d
  if pm.2 ≠ Ret.success then
    ([NvCall.getPersistenceMode d], [],
      some ("unable to get GPU " ++ index ++ " Persistence Mode Info: " ++
        errorString pm.2))
  else
    ([NvCall.getPersistenceMode d],
      [⟨Desc.persisMode, 1, [index, getPersisModeString pm.1]⟩], none)

/-- The utilization block of `Update`: one query, two observations
(`GPU` then `MEMORY`). -/
def utilBlock (o : Nvml) (index : String) (d : Device) : PollResult :=
  let ut := o.getUtilizationRates d
  if ut.2 ≠ Ret.success then
    ([NvCall.getUtilizationRates d], [],
      some ("unable to get GPU " ++ index ++ " Utilization Info: " ++
        errorString ut.2))
  else
    ([NvCall.getUtilizationRates d],
      [⟨Desc.util, ut.1.1, [index, "GPU"]⟩,
       ⟨Desc.util, ut.1.2, [index, "MEMORY"]⟩], none)

/-- The `for t` loop over temperature sensor-slot codes: any non-success
status (including `NOT_SUPPORTED`) is a hard error. -/
def tempLoop (o : Nvml) (index : String) (d : Device) (t : Nat) : Nat → PollResult
  | 0 => ([], [], none)
  | n + 1 =>
    let tp := o.getTemperature d t
    if tp.2 ≠ Ret.success then
      ([NvCall.getTemperature d t], [],
        some ("unable to get GPU " ++ index ++ " Temperature Sensor " ++
          getTemperatureSensorString (t : Int) ++ " Value: " ++ errorString tp.2))
    else
      pstep
        ([NvCall.getTemperature d t],
          [⟨Desc.temp, tp.1, [index, getTemperatureSensorString (t : Int)]⟩], none)
        (tempLoop o index d (t + 1) n)

/-- The temperature block of `Update`. -/
def tempBlock (o : Nvml) (index : String) (d : Device) : PollResult :=
  tempLoop o index d 0 TEMPERATURE_COUNT

/-- The enforced-power-limit query of the power block: `NOT_SUPPORTED`
is soft-skipped, success emits the observation, anything else is hard. -/
def enforcedLimitStep (o : Nvml) (index : String) (d : Device) : PollResult :=
  let el := o.getEnforcedPowerLimit d
  match el.2 with
  | Ret.errNotSupported => ([NvCall.getEnforcedPowerLimit d], [], none)
  | Ret.success =>
      ([NvCall.getEnforcedPowerLimit d],
        [⟨Desc.powerEnforceLimit, el.1, [index]⟩], none)
  | Ret.errOther c =>
      ([NvCall.getEnforcedPowerLimit d], [],
        some ("unable to get GPU " ++ index ++
          " Power Enforced Limitation Value: " ++ errorString (Ret.errOther c)))

/-- The power block of `Update`: power usage is hard-fail; the enforced
power limit soft-skips on `NOT_SUPPORTED`. -/
def powerBlock (o : Nvml) (index : String) (d : Device) : PollResult :=
  let pw := o.getPowerUsage d
  if pw.2 ≠ Ret.success then
    ([NvCall.getPowerUsage d], [],
      some ("unable to get GPU " ++ index ++ " Power Usage Value: " ++
        errorString pw.2))
  else
    pstep
      ([NvCall.getPowerUsage d], [⟨Desc.powerUsage, pw.1, [index]⟩], none)
      (enforcedLimitStep o index d)

/-- The memory block of `Update`: total, free, used (emission order of
the source). -/
def memBlock (o : Nvml) (index : String) (d : Device) : PollResult :=
  let mi := o.getMemoryInfo d
  if mi.2 ≠ Ret.success then
    ([NvCall.getMemoryInfo d], [],
      some ("unable to get GPU " ++ index ++ " Memory Info: " ++
        errorString mi.2))
  else
    ([NvCall.getMemoryInfo d],
      [⟨Desc.memTotal, mi.1.1, [index]⟩,
       ⟨Desc.memFree, mi.1.2.2, [index]⟩,
       ⟨Desc.memUsed, mi.1.2.1, [index]⟩], none)

/-- The whole per-device body of `Update`'s device loop, in source order. -/
def deviceUpdate (fl : Flags) (o : Nvml) (indexI : Nat) (d : Device) : PollResult :=
  let index := toString indexI
  pstep (if fl.gpuinfo then gpuInfoBlock o index d else ([], [], none))
    (pstep (if fl.fan then fanBlock o index d else ([], [], none))
      (pstep (clockBlock o index d)
        (pstep (computeModeBlock o index d)
          (pstep (perfBlock o index d)
            (pstep (persisModeBlock o index d)
              (pstep (utilBlock o index d)
                (pstep (tempBlock o index d)
                  (pstep (powerBlock o index d)
                    (memBlock o index d)))))))))

/-- The `for indexI, d := range devices` loop of `Update`. -/
def deviceLoop (fl : Flags) (o : Nvml) : Nat → List Device → PollResult
  | _, [] => ([], [], none)
  | i, d :: ds => pstep (deviceUpdate fl o i d) (deviceLoop fl o (i + 1) ds)

/-- The enumeration loop of `Update`: resolve each index to a handle; any
failure aborts with the partial list discarded. Returns calls, devices,
error. -/
def enumLoop (o : Nvml) (i : Nat) : Nat → List NvCall × List Device × Option String
  | 0 => ([], [], none)
  | n + 1 =>
    let h := o.deviceGetHandleByIndex i
    if h.2 ≠ Ret.success then
      ([NvCall.deviceGetHandleByIndex i], [],
        some ("unable to get device at index " ++ toString i ++ ": " ++
          errorString h.2))
    else
      let rest := enumLoop o (i + 1) n
      (NvCall.deviceGetHandleByIndex i :: rest.1, h.1 :: rest.2.1, rest.2.2)

/-- `Update` after a successful `nvml.Init`: device count, enumeration,
optional sysinfo family, then the device loop. -/
def updateBody (fl : Flags) (o : Nvml) : PollResult :=
  let cnt := o.deviceGetCount
  if cnt.2 ≠ Ret.success then
    ([NvCall.deviceGetCount], [],
      some ("unable to get device count: " ++ errorString cnt.2))
  else
    let en := enumLoop o 0 cnt.1
    match en.2.2 with
    | some e => (NvCall.deviceGetCount :: en.1, [], some e)
    | none =>
        let rest := pstep (if fl.sysinfo then sysInfoBlock o else ([], [], none))
          (deviceLoop fl o 0 en.2.1)
        (NvCall.deviceGetCount :: en.1 ++ rest.1, rest.2.1, rest.2.2)

/-- `Update` of the collector: `nvml.Init`, the body, and the deferred
`nvml.Shutdown` on every exit path taken after a successful init.  The
deferred closure only logs a shutdown failure, so the shutdown's status
cannot influence the returned metrics or error. -/
def update (fl : Flags) (o : Nvml) : PollResult :=
  if o.nvInit ≠ Ret.success then
    ([NvCall.nvInit], [],
      some ("unable to initialize NVML: " ++ errorString o.nvInit))
  else
    let b := updateBody fl o
    (NvCall.nvInit :: b.1 ++ [NvCall.shutdown], b.2.1, b.2.2)

/-! ## Classification of calls and descriptors by metric family -/

/-- Family tag: session management, the three flag-gated families, or the
always-on per-device families. -/
inductive FamTag where
  | session
  | sysfam
  | gpufam
  | fanfam
  | otherdev
  deriving DecidableEq, Repr

/-- Which family a device-access call belongs to. -/
def callFam : NvCall → FamTag
  | NvCall.nvInit => FamTag.session
  | NvCall.shutdown => FamTag.session
  | NvCall.deviceGetCount => FamTag.session
  | NvCall.deviceGetHandleByIndex _ => FamTag.session
  | NvCall.systemGetDriverVersion => FamTag.sysfam
  | NvCall.systemGetCudaDriverVersion => FamTag.sysfam
  | NvCall.systemGetNVMLVersion => FamTag.sysfam
  | NvCall.getUUID _ => FamTag.gpufam
  | NvCall.getName _ => FamTag.gpufam
  | NvCall.getBusType _ => FamTag.gpufam
  | NvCall.getNumFans _ => FamTag.fanfam
  | NvCall.getMinMaxFanSpeed _ => FamTag.fanfam
  | NvCall.getFanSpeed _ _ => FamTag.fanfam
  | _ => FamTag.otherdev

/-- Which family a metric descriptor belongs to. -/
def descFam : Desc → FamTag
  | Desc.sysinfo => FamTag.sysfam
  | Desc.gpuinfo => FamTag.gpufam
  | Desc.minFanSpeed => FamTag.fanfam
  | Desc.maxFanSpeed => FamTag.fanfam
  | Desc.fanSpeed => FamTag.fanfam
  | _ => FamTag.otherdev

/-! ## Oracle variations (for non-interference statements) -/

/-- The oracle with only the shutdown response replaced. -/
def Nvml.withShutdown (o : Nvml) (s : Ret) : Nvml := {o with shutdown := s}

/-- The oracle with only the three sysinfo-family responses replaced. -/
def Nvml.withSysinfoQueries (o : Nvml) (a : String × Ret) (b : Int × Ret)
    (c : String × Ret) : Nvml :=
  {o with systemGetDriverVersion := a, systemGetCudaDriverVersion := b,
          systemGetNVMLVersion := c}

/-- The oracle with only the three gpuinfo-family responses replaced. -/
def Nvml.withGpuinfoQueries (o : Nvml) (u nm : Device → String × Ret)
    (b : Device → Int × Ret) : Nvml :=
  {o with getUUID := u, getName := nm, getBusType := b}

/-- The oracle with only the three fan-family responses replaced. -/
def Nvml.withFanQueries (o : Nvml) (fn : Device → Int × Ret)
    (mm : Device → Nat × Nat × Ret) (fs : Device → Nat → Nat × Ret) : Nvml :=
  {o with getNumFans := fn, getMinMaxFanSpeed := mm, getFanSpeed := fs}

/-! ## Concrete configurations and oracles used as test inputs -/

/-- All three family flags enabled. -/
def flagsAll : Flags := ⟨true, true, true⟩

/-- Only the fan family enabled. -/
def flagsFanOnly : Flags := ⟨false, false, true⟩

/-- All three family flags disabled. -/
def flagsNone : Flags := ⟨false, false, false⟩

/-- A fully healthy oracle: one device, two fans, every query succeeds. -/
def oracleA : Nvml where
  nvInit := Ret.success
  shutdown := Ret.success
  deviceGetCount := (1, Ret.success)
  deviceGetHandleByIndex := fun i => (i, Ret.success)
  systemGetDriverVersion := ("535.104.05", Ret.success)
  systemGetCudaDriverVersion := (11070, Ret.success)
  systemGetNVMLVersion := ("11.535.104", Ret.success)
  getUUID := fun _ => ("GPU-0000", Ret.success)
  getName := fun _ => ("NVIDIA A100", Ret.success)
  getBusType := fun _ => (2, Ret.success)
  getNumFans := fun _ => (2, Ret.success)
  getMinMaxFanSpeed := fun _ => (10, 100, Ret.success)
  getFanSpeed := fun _ f => (30 + f, Ret.success)
  getApplicationsClock := fun _ t => (1000 + t, Ret.success)
  getClock := fun _ t tt => (100 * t + tt, Ret.success)
  getComputeMode := fun _ => (0, Ret.success)
  getPerformanceState := fun _ => (0, Ret.success)
  getPersistenceMode := fun _ => (1, Ret.success)
  getUtilizationRates := fun _ => ((42, 17), Ret.success)
  getTemperature := fun _ _ => (55, Ret.success)
  getPowerUsage := fun _ => (123000, Ret.success)
  getEnforcedPowerLimit := fun _ => (250000, Ret.success)
  getMemoryInfo := fun _ => ((100, 40, 60), Ret.success)

/-- `oracleA` with a hard failure on the driver-version query. -/
def oracleDriverFail : Nvml :=
  {oracleA with systemGetDriverVersion := ("", Ret.errOther 3)}

/-- `oracleA` with a hard failure on the device-count query. -/
def oracleCountFail : Nvml :=
  {oracleA with deviceGetCount := (0, Ret.errOther 5)}

/-- `oracleA` with a hard failure on every handle resolution. -/
def oracleHandleFail : Nvml :=
  {oracleA with deviceGetHandleByIndex := fun i => (i, Ret.errOther 7)}

/-- `oracleA` with the temperature query reporting `NOT_SUPPORTED`. -/
def oracleTempNS : Nvml :=
  {oracleA with getTemperature := fun _ _ => (0, Ret.errNotSupported)}

/-- `oracleA` with clocks and enforced power limit reporting `NOT_SUPPORTED`. -/
def oracleClockNS : Nvml :=
  {oracleA with
    getApplicationsClock := fun _ _ => (0, Ret.errNotSupported),
    getClock := fun _ _ _ => (0, Ret.errNotSupported),
    getEnforcedPowerLimit := fun _ => (0, Ret.errNotSupported)}

/-- `oracleA` with a hard failure on the applications-clock query. -/
def oracleBadClock : Nvml :=
  {oracleA with getApplicationsClock := fun _ _ => (0, Ret.errOther 9)}

/-- `oracleA` with zero fans. -/
def oracleNoFan : Nvml := {oracleA with getNumFans := fun _ => (0, Ret.success)}

/-! ## Basic lemmas about poll sequencing -/

/-- An errored fragment absorbs everything sequenced after it: this is
the short-circuit of Go's early `return`. -/
@[simp] theorem pstep_some (cs : List NvCall) (ms : List Metric) (e : String)
    (b : PollResult) : pstep (cs, ms, some e) b = (cs, ms, some e) := rfl

/-- A successful fragment concatenates with what follows. -/
theorem pstep_none (cs : List NvCall) (ms : List Metric) (b : PollResult) :
    pstep (cs, ms, none) b = (cs ++ b.1, ms ++ b.2.1, b.2.2) := by
  rcases b with ⟨cs2, ms2, e2⟩
  rfl

/-- An empty successful fragment is a left identity. -/
theorem pstep_nil (b : PollResult) : pstep ([], [], none) b = b := by
  rcases b with ⟨cs2, ms2, e2⟩
  rfl

/-- Calls of a sequenced fragment come from one of the two parts. -/
theorem pstep_calls_subset {c : NvCall} {a b : PollResult}
    (h : c ∈ (pstep a b).1) : c ∈ a.1 ∨ c ∈ b.1 := by
  rcases a with ⟨cs, ms, e⟩
  cases e with
  | none =>
      rcases b with ⟨cs2, ms2, e2⟩
      simp only [pstep, List.mem_append] at h
      exact h
  | some e =>
      simp only [pstep] at h
      exact Or.inl h

/-- Metrics of a sequenced fragment come from one of the two parts. -/
theorem pstep_metrics_subset {m : Metric} {a b : PollResult}
    (h : m ∈ (pstep a b).2.1) : m ∈ a.2.1 ∨ m ∈ b.2.1 := by
  rcases a with ⟨cs, ms, e⟩
  cases e with
  | none =>
      rcases b with ⟨cs2, ms2, e2⟩
      simp only [pstep, List.mem_append] at h
      exact h
  | some e =>
      simp only [pstep] at h
      exact Or.inl h

/-! ## Classification lemmas: which calls and metrics each block produces -/

/-- A boolean scan certifying the family of every call in a list. -/
theorem callFam_mem {l : List NvCall} {t : FamTag} (c : NvCall) (hc : c ∈ l)
    (h : l.all (fun c => callFam c == t) = true) : callFam c = t :=
  eq_of_beq (List.all_eq_true.mp h c hc)

theorem sysInfoBlock_calls (o : Nvml) :
    ∀ c ∈ (sysInfoBlock o).1, callFam c = FamTag.sysfam := by
  intro c hc
  simp only [sysInfoBlock] at hc
  repeat' split at hc
  all_goals exact callFam_mem c hc rfl

theorem sysInfoBlock_metrics (o : Nvml) :
    ∀ m ∈ (sysInfoBlock o).2.1, descFam m.desc = FamTag.sysfam := by
  intro m hm
  simp only [sysInfoBlock] at hm
  repeat' split at hm
  all_goals simp only [List.mem_singleton, List.not_mem_nil] at hm
  subst hm
  rfl

theorem gpuInfoBlock_calls (o : Nvml) (index : String) (d : Device) :
    ∀ c ∈ (gpuInfoBlock o index d).1, callFam c = FamTag.gpufam := by
  intro c hc
  simp only [gpuInfoBlock] at hc
  repeat' split at hc
  all_goals exact callFam_mem c hc rfl

theorem gpuInfoBlock_metrics (o : Nvml) (index : String) (d : Device) :
    ∀ m ∈ (gpuInfoBlock o index d).2.1,
      descFam m.desc = FamTag.gpufam ∧ m.labels.head? = some index := by
  intro m hm
  simp only [gpuInfoBlock] at hm
  repeat' split at hm
  all_goals simp only [List.mem_singleton, List.not_mem_nil] at hm
  subst hm
  exact ⟨rfl, rfl⟩

theorem appClkStep_calls (o : Nvml) (index : String) (d : Device) (t : Nat) :
    ∀ c ∈ (appClkStep o index d t).1, callFam c = FamTag.otherdev := by
  intro c hc
  simp only [appClkStep] at hc
  repeat' split at hc
  all_goals exact callFam_mem c hc rfl

theorem appClkStep_metrics (o : Nvml) (index : String) (d : Device) (t : Nat) :
    ∀ m ∈ (appClkStep o index d t).2.1,
      descFam m.desc = FamTag.otherdev ∧ m.labels.head? = some index := by
  intro m hm
  simp only [appClkStep] at hm
  repeat' split at hm
  all_goals simp only [List.mem_singleton, List.not_mem_nil] at hm
  subst hm
  exact ⟨rfl, rfl⟩

theorem clkStep_calls (o : Nvml) (index : String) (d : Device) (t tt : Nat) :
    ∀ c ∈ (clkStep o index d t tt).1, callFam c = FamTag.otherdev := by
  intro c hc
  simp only [clkStep] at hc
  repeat' split at hc
  all_goals exact callFam_mem c hc rfl

theorem clkStep_metrics (o : Nvml) (index : String) (d : Device) (t tt : Nat) :
    ∀ m ∈ (clkStep o index d t tt).2.1,
      descFam m.desc = FamTag.otherdev ∧ m.labels.head? = some index := by
  intro m hm
  simp only [clkStep] at hm
  repeat' split at hm
  all_goals simp only [List.mem_singleton, List.not_mem_nil] at hm
  subst hm
  exact ⟨rfl, rfl⟩

theorem computeModeBlock_calls (o : Nvml) (index : String) (d : Device) :
    ∀ c ∈ (computeModeBlock o index d).1, callFam c = FamTag.otherdev := by
  intro c hc
  simp only [computeModeBlock] at hc
  repeat' split at hc
  all_goals exact callFam_mem c hc rfl

theorem computeModeBlock_metrics (o : Nvml) (index : String) (d : Device) :
    ∀ m ∈ (computeModeBlock o index d).2.1,
      descFam m.desc = FamTag.otherdev ∧ m.labels.head? = some index := by
  intro m hm
  simp only [computeModeBlock] at hm
  repeat' split at hm
  all_goals simp only [List.mem_singleton, List.not_mem_nil] at hm
  subst hm
  exact ⟨rfl, rfl⟩

theorem perfBlock_calls (o : Nvml) (index : String) (d : Device) :
    ∀ c ∈ (perfBlock o index d).1, callFam c = FamTag.otherdev := by
  intro c hc
  simp only [perfBlock] at hc
  repeat' split at hc
  all_goals exact callFam_mem c hc rfl

theorem perfBlock_metrics (o : Nvml) (index : String) (d : Device) :
    ∀ m ∈ (perfBlock o index d).2.1,
      descFam m.desc = FamTag.otherdev ∧ m.labels.head? = some index := by
  intro m hm
  simp only [perfBlock] at hm
  repeat' split at hm
  all_goals simp only [List.mem_singleton, List.not_mem_nil] at hm
  subst hm
  exact ⟨rfl, rfl⟩

theorem persisModeBlock_calls (o : Nvml) (index : String) (d : Device) :
    ∀ c ∈ (persisModeBlock o index d).1, callFam c = FamTag.otherdev := by
  intro c hc
  simp only [persisModeBlock] at hc
  repeat' split at hc
  all_goals exact callFam_mem c hc rfl

theorem persisModeBlock_metrics (o : Nvml) (index : String) (d : Device) :
    ∀ m ∈ (persisModeBlock o index d).2.1,
      descFam m.desc = FamTag.otherdev ∧ m.labels.head? = some index := by
  intro m hm
  simp only [persisModeBlock] at hm
  repeat' split at hm
  all_goals simp only [List.mem_singleton, List.not_mem_nil] at hm
  subst hm
  exact ⟨rfl, rfl⟩

theorem utilBlock_calls (o : Nvml) (index : String) (d : Device) :
    ∀ c ∈ (utilBlock o index d).1, callFam c = FamTag.otherdev := by
  intro c hc
  simp only [utilBlock] at hc
  repeat' split at hc
  all_goals exact callFam_mem c hc rfl

theorem utilBlock_metrics (o : Nvml) (index : String) (d : Device) :
    ∀ m ∈ (utilBlock o index d).2.1,
      descFam m.desc = FamTag.otherdev ∧ m.labels.head? = some index := by
  intro m hm
  simp only [utilBlock] at hm
  repeat' split at hm
  all_goals simp only [List.mem_cons, List.not_mem_nil, or_false] at hm
  rcases hm with rfl | rfl
  · exact ⟨rfl, rfl⟩
  · exact ⟨rfl, rfl⟩

theorem enforcedLimitStep_calls (o : Nvml) (index : String) (d : Device) :
    ∀ c ∈ (enforcedLimitStep o index d).1, callFam c = FamTag.otherdev := by
  intro c hc
  simp only [enforcedLimitStep] at hc
  repeat' split at hc
  all_goals exact callFam_mem c hc rfl

theorem enforcedLimitStep_metrics (o : Nvml) (index : String) (d : Device) :
    ∀ m ∈ (enforcedLimitStep o index d).2.1,
      descFam m.desc = FamTag.otherdev ∧ m.labels.head? = some index := by
  intro m hm
  simp only [enforcedLimitStep] at hm
  repeat' split at hm
  all_goals simp only [List.mem_singleton, List.not_mem_nil] at hm
  subst hm
  exact ⟨rfl, rfl⟩

theorem memBlock_calls (o : Nvml) (index : String) (d : Device) :
    ∀ c ∈ (memBlock o index d).1, callFam c = FamTag.otherdev := by
  intro c hc
  simp only [memBlock] at hc
  repeat' split at hc
  all_goals exact callFam_mem c hc rfl

theorem memBlock_metrics (o : Nvml) (index : String) (d : Device) :
    ∀ m ∈ (memBlock o index d).2.1,
      descFam m.desc = FamTag.otherdev ∧ m.labels.head? = some index := by
  intro m hm
  simp only [memBlock] at hm
  repeat' split at hm
  all_goals simp only [List.mem_cons, List.not_mem_nil, or_false] at hm
  rcases hm with rfl | rfl | rfl
  · exact ⟨rfl, rfl⟩
  · exact ⟨rfl, rfl⟩
  · exact ⟨rfl, rfl⟩

theorem fanLoop_calls (o : Nvml) (index : String) (d : Device) (mn mx : Nat) :
    ∀ fuel f, ∀ c ∈ (fanLoop o index d mn mx f fuel).1, callFam c = FamTag.fanfam := by
  intro fuel
  induction fuel with
  | zero =>
      intro f c hc
      simp only [fanLoop, List.not_mem_nil] at hc
  | succ n ih =>
      intro f c hc
      simp only [fanLoop] at hc
      split at hc
      · exact callFam_mem c hc rfl
      · simp only [List.mem_cons] at hc
        rcases hc with rfl | hc2
        · rfl
        · exact ih (f + 1) c hc2

theorem fanLoop_metrics (o : Nvml) (index : String) (d : Device) (mn mx : Nat) :
    ∀ fuel f, ∀ m ∈ (fanLoop o index d mn mx f fuel).2.1,
      descFam m.desc = FamTag.fanfam ∧ m.labels.head? = some index := by
  intro fuel
  induction fuel with
  | zero =>
      intro f m hm
      simp only [fanLoop, List.not_mem_nil] at hm
  | succ n ih =>
      intro f m hm
      simp only [fanLoop] at hm
      split at hm
      · simp only [List.not_mem_nil] at hm
      · simp only [List.mem_cons] at hm
        rcases hm with rfl | rfl | rfl | hm2
        · exact ⟨rfl, rfl⟩
        · exact ⟨rfl, rfl⟩
        · exact ⟨rfl, rfl⟩
        · exact ih (f + 1) m hm2

theorem fanBlock_calls (o : Nvml) (index : String) (d : Device) :
    ∀ c ∈ (fanBlock o index d).1, callFam c = FamTag.fanfam := by
  intro c hc
  simp only [fanBlock] at hc
  split at hc
  · exact callFam_mem c hc rfl
  · split at hc
    · split at hc
      · exact callFam_mem c hc rfl
      · simp only [List.mem_cons] at hc
        rcases hc with rfl | rfl | hc2
        · rfl
        · rfl
        · exact fanLoop_calls o index d _ _ _ 0 c hc2
    · exact callFam_mem c hc rfl

theorem fanBlock_metrics (o : Nvml) (index : String) (d : Device) :
    ∀ m ∈ (fanBlock o index d).2.1,
      descFam m.desc = FamTag.fanfam ∧ m.labels.head? = some index := by
  intro m hm
  simp only [fanBlock] at hm
  split at hm
  · simp only [List.not_mem_nil] at hm
  · split at hm
    · split at hm
      · simp only [List.not_mem_nil] at hm
      · exact fanLoop_metrics o index d _ _ _ 0 m hm
    · simp only [List.not_mem_nil] at hm

theorem clkIdLoop_calls (o : Nvml) (index : String) (d : Device) (t : Nat) :
    ∀ fuel tt, ∀ c ∈ (clkIdLoop o index d t tt fuel).1, callFam c = FamTag.otherdev := by
  intro fuel
  induction fuel with
  | zero =>
      intro tt c hc
      simp only [clkIdLoop, List.not_mem_nil] at hc
  | succ n ih =>
      intro tt c hc
      simp only [clkIdLoop] at hc
      rcases pstep_calls_subset hc with h | h
      · exact clkStep_calls o index d t tt c h
      · exact ih (tt + 1) c h

theorem clkIdLoop_metrics (o : Nvml) (index : String) (d : Device) (t : Nat) :
    ∀ fuel tt, ∀ m ∈ (clkIdLoop o index d t tt fuel).2.1,
      descFam m.desc = FamTag.otherdev ∧ m.labels.head? = some index := by
  intro fuel
  induction fuel with
  | zero =>
      intro tt m hm
      simp only [clkIdLoop, List.not_mem_nil] at hm
  | succ n ih =>
      intro tt m hm
      simp only [clkIdLoop] at hm
      rcases pstep_metrics_subset hm with h | h
      · exact clkStep_metrics o index d t tt m h
      · exact ih (tt + 1) m h

theorem clockTypeStep_calls (o : Nvml) (index : String) (d : Device) (t : Nat) :
    ∀ c ∈ (clockTypeStep o index d t).1, callFam c = FamTag.otherdev := by
  intro c hc
  simp only [clockTypeStep] at hc
  rcases pstep_calls_subset hc with h | h
  · exact appClkStep_calls o index d t c h
  · exact clkIdLoop_calls o index d t _ 0 c h

theorem clockTypeStep_metrics (o : Nvml) (index : String) (d : Device) (t : Nat) :
    ∀ m ∈ (clockTypeStep o index d t).2.1,
      descFam m.desc = FamTag.otherdev ∧ m.labels.head? = some index := by
  intro m hm
  simp only [clockTypeStep] at hm
  rcases pstep_metrics_subset hm with h | h
  · exact appClkStep_metrics o index d t m h
  · exact clkIdLoop_metrics o index d t _ 0 m h

theorem clockTypeLoop_calls (o : Nvml) (index : String) (d : Device) :
    ∀ fuel t, ∀ c ∈ (clockTypeLoop o index d t fuel).1, callFam c = FamTag.otherdev := by
  intro fuel
  induction fuel with
  | zero =>
      intro t c hc
      simp only [clockTypeLoop, List.not_mem_nil] at hc
  | succ n ih =>
      intro t c hc
      simp only [clockTypeLoop] at hc
      rcases pstep_calls_subset hc with h | h
      · exact clockTypeStep_calls o index d t c h
      · exact ih (t + 1) c h

theorem clockTypeLoop_metrics (o : Nvml) (index : String) (d : Device) :
    ∀ fuel t, ∀ m ∈ (clockTypeLoop o index d t fuel).2.1,
      descFam m.desc = FamTag.otherdev ∧ m.labels.head? = some index := by
  intro fuel
  induction fuel with
  | zero =>
      intro t m hm
      simp only [clockTypeLoop, List.not_mem_nil] at hm
  | succ n ih =>
      intro t m hm
      simp only [clockTypeLoop] at hm
      rcases pstep_metrics_subset hm with h | h
      · exact clockTypeStep_metrics o index d t m h
      · exact ih (t + 1) m h

theorem clockBlock_calls (o : Nvml) (index : String) (d : Device) :
    ∀ c ∈ (clockBlock o index d).1, callFam c = FamTag.otherdev := by
  intro c hc
  exact clockTypeLoop_calls o index d CLOCK_COUNT 0 c hc

theorem clockBlock_metrics (o : Nvml) (index : String) (d : Device) :
    ∀ m ∈ (clockBlock o index d).2.1,
      descFam m.desc = FamTag.otherdev ∧ m.labels.head? = some index := by
  intro m hm
  exact clockTypeLoop_metrics o index d CLOCK_COUNT 0 m hm

theorem tempLoop_calls (o : Nvml) (index : String) (d : Device) :
    ∀ fuel t, ∀ c ∈ (tempLoop o index d t fuel).1, callFam c = FamTag.otherdev := by
  intro fuel
  induction fuel with
  | zero =>
      intro t c hc
      simp only [tempLoop, List.not_mem_nil] at hc
  | succ n ih =>
      intro t c hc
      simp only [tempLoop] at hc
      split at hc
      · exact callFam_mem c hc rfl
      · rcases pstep_calls_subset hc with h | h
        · exact callFam_mem c h rfl
        · exact ih (t + 1) c h

theorem tempLoop_metrics (o : Nvml) (index : String) (d : Device) :
    ∀ fuel t, ∀ m ∈ (tempLoop o index d t fuel).2.1,
      descFam m.desc = FamTag.otherdev ∧ m.labels.head? = some index := by
  intro fuel
  induction fuel with
  | zero =>
      intro t m hm
      simp only [tempLoop, List.not_mem_nil] at hm
  | succ n ih =>
      intro t m hm
      simp only [tempLoop] at hm
      split at hm
      · simp only [List.not_mem_nil] at hm
      · rcases pstep_metrics_subset hm with h | h
        · simp only [List.mem_singleton] at h
          subst h
          exact ⟨rfl, rfl⟩
        · exact ih (t + 1) m h

theorem tempBlock_calls (o : Nvml) (index : String) (d : Device) :
    ∀ c ∈ (tempBlock o index d).1, callFam c = FamTag.otherdev := by
  intro c hc
  exact tempLoop_calls o index d TEMPERATURE_COUNT 0 c hc

theorem tempBlock_metrics (o : Nvml) (index : String) (d : Device) :
    ∀ m ∈ (tempBlock o index d).2.1,
      descFam m.desc = FamTag.otherdev ∧ m.labels.head? = some index := by
  intro m hm
  exact tempLoop_metrics o index d TEMPERATURE_COUNT 0 m hm

theorem powerBlock_calls (o : Nvml) (index : String) (d : Device) :
    ∀ c ∈ (powerBlock o index d).1, callFam c = FamTag.otherdev := by
  intro c hc
  simp only [powerBlock] at hc
  split at hc
  · exact callFam_mem c hc rfl
  · rcases pstep_calls_subset hc with h | h
    · exact callFam_mem c h rfl
    · exact enforcedLimitStep_calls o index d c h

theorem powerBlock_metrics (o : Nvml) (index : String) (d : Device) :
    ∀ m ∈ (powerBlock o index d).2.1,
      descFam m.desc = FamTag.otherdev ∧ m.labels.head? = some index := by
  intro m hm
  simp only [powerBlock] at hm
  split at hm
  · simp only [List.not_mem_nil] at hm
  · rcases pstep_metrics_subset hm with h | h
    · simp only [List.mem_singleton] at h
      subst h
      exact ⟨rfl, rfl⟩
    · exact enforcedLimitStep_metrics o index d m h

theorem deviceUpdate_calls (fl : Flags) (o : Nvml) (i : Nat) (d : Device) :
    ∀ c ∈ (deviceUpdate fl o i d).1,
      (callFam c = FamTag.gpufam ∧ fl.gpuinfo = true) ∨
      (callFam c = FamTag.fanfam ∧ fl.fan = true) ∨
      callFam c = FamTag.otherdev := by
  intro c hc
  simp only [deviceUpdate] at hc
  rcases pstep_calls_subset hc with h | h
  · split at h
    · exact Or.inl ⟨gpuInfoBlock_calls o _ d c h, by assumption⟩
    · simp only [List.not_mem_nil] at h
  · rcases pstep_calls_subset h with h | h
    · split at h
      · exact Or.inr (Or.inl ⟨fanBlock_calls o _ d c h, by assumption⟩)
      · simp only [List.not_mem_nil] at h
    · rcases pstep_calls_subset h with h | h
      · exact Or.inr (Or.inr (clockBlock_calls o _ d c h))
      · rcases pstep_calls_subset h with h | h
        · exact Or.inr (Or.inr (computeModeBlock_calls o _ d c h))
        · rcases pstep_calls_subset h with h | h
          · exact Or.inr (Or.inr (perfBlock_calls o _ d c h))
          · rcases pstep_calls_subset h with h | h
            · exact Or.inr (Or.inr (persisModeBlock_calls o _ d c h))
            · rcases pstep_calls_subset h with h | h
              · exact Or.inr (Or.inr (utilBlock_calls o _ d c h))
              · rcases pstep_calls_subset h with h | h
                · exact Or.inr (Or.inr (tempBlock_calls o _ d c h))
                · rcases pstep_calls_subset h with h | h
                  · exact Or.inr (Or.inr (powerBlock_calls o _ d c h))
                  · exact Or.inr (Or.inr (memBlock_calls o _ d c h))

theorem deviceUpdate_metrics (fl : Flags) (o : Nvml) (i : Nat) (d : Device) :
    ∀ m ∈ (deviceUpdate fl o i d).2.1,
      ((descFam m.desc = FamTag.gpufam ∧ fl.gpuinfo = true) ∨
       (descFam m.desc = FamTag.fanfam ∧ fl.fan = true) ∨
       descFam m.desc = FamTag.otherdev) ∧
      m.labels.head? = some (toString i) := by
  intro m hm
  simp only [deviceUpdate] at hm
  rcases pstep_metrics_subset hm with h | h
  · split at h
    · have hb := gpuInfoBlock_metrics o _ d m h
      exact ⟨Or.inl ⟨hb.1, by assumption⟩, hb.2⟩
    · simp only [List.not_mem_nil] at h
  · rcases pstep_metrics_subset h with h | h
    · split at h
      · have hb := fanBlock_metrics o _ d m h
        exact ⟨Or.inr (Or.inl ⟨hb.1, by assumption⟩), hb.2⟩
      · simp only [List.not_mem_nil] at h
    · rcases pstep_metrics_subset h with h | h
      · have hb := clockBlock_metrics o _ d m h
        exact ⟨Or.inr (Or.inr hb.1), hb.2⟩
      · rcases pstep_metrics_subset h with h | h
        · have hb := computeModeBlock_metrics o _ d m h
          exact ⟨Or.inr (Or.inr hb.1), hb.2⟩
        · rcases pstep_metrics_subset h with h | h
          · have hb := perfBlock_metrics o _ d m h
            exact ⟨Or.inr (Or.inr hb.1), hb.2⟩
          · rcases pstep_metrics_subset h with h | h
            · have hb := persisModeBlock_metrics o _ d m h
              exact ⟨Or.inr (Or.inr hb.1), hb.2⟩
            · rcases pstep_metrics_subset h with h | h
              · have hb := utilBlock_metrics o _ d m h
                exact ⟨Or.inr (Or.inr hb.1), hb.2⟩
              · rcases pstep_metrics_subset h with h | h
                · have hb := tempBlock_metrics o _ d m h
                  exact ⟨Or.inr (Or.inr hb.1), hb.2⟩
                · rcases pstep_metrics_subset h with h | h
                  · have hb := powerBlock_metrics o _ d m h
                    exact ⟨Or.inr (Or.inr hb.1), hb.2⟩
                  · have hb := memBlock_metrics o _ d m h
                    exact ⟨Or.inr (Or.inr hb.1), hb.2⟩

theorem deviceLoop_calls (fl : Flags) (o : Nvml) :
    ∀ ds i, ∀ c ∈ (deviceLoop fl o i ds).1,
      (callFam c = FamTag.gpufam ∧ fl.gpuinfo = true) ∨
      (callFam c = FamTag.fanfam ∧ fl.fan = true) ∨
      callFam c = FamTag.otherdev := by
  intro ds
  induction ds with
  | nil =>
      intro i c hc
      simp only [deviceLoop, List.not_mem_nil] at hc
  | cons d ds ih =>
      intro i c hc
      simp only [deviceLoop] at hc
      rcases pstep_calls_subset hc with h | h
      · exact deviceUpdate_calls fl o i d c h
      · exact ih (i + 1) c h

theorem deviceLoop_metrics (fl : Flags) (o : Nvml) :
    ∀ ds i, ∀ m ∈ (deviceLoop fl o i ds).2.1,
      ((descFam m.desc = FamTag.gpufam ∧ fl.gpuinfo = true) ∨
       (descFam m.desc = FamTag.fanfam ∧ fl.fan = true) ∨
       descFam m.desc = FamTag.otherdev) ∧
      (∃ j, j < ds.length ∧ m.labels.head? = some (toString (i + j))) := by
  intro ds
  induction ds with
  | nil =>
      intro i m hm
      simp only [deviceLoop, List.not_mem_nil] at hm
  | cons d ds ih =>
      intro i m hm
      simp only [deviceLoop] at hm
      rcases pstep_metrics_subset hm with h | h
      · have hb := deviceUpdate_metrics fl o i d m h
        exact ⟨hb.1, 0, by simp, by simpa using hb.2⟩
      · have hb := ih (i + 1) m h
        rcases hb.2 with ⟨j, hj, hlab⟩
        refine ⟨hb.1, j + 1, by simpa using Nat.succ_lt_succ hj, ?_⟩
        have : i + 1 + j = i + (j + 1) := by omega
        rw [this] at hlab
        exact hlab

theorem enumLoop_calls (o : Nvml) :
    ∀ n i, ∀ c ∈ (enumLoop o i n).1, ∃ j, c = NvCall.deviceGetHandleByIndex j := by
  intro n
  induction n with
  | zero =>
      intro i c hc
      simp only [enumLoop, List.not_mem_nil] at hc
  | succ n ih =>
      intro i c hc
      simp only [enumLoop] at hc
      split at hc
      · simp only [List.mem_singleton] at hc
        exact ⟨i, hc⟩
      · simp only [List.mem_cons] at hc
        rcases hc with rfl | hc2
        · exact ⟨i, rfl⟩
        · exact ih (i + 1) c hc2

theorem updateBody_calls (fl : Flags) (o : Nvml) :
    ∀ c ∈ (updateBody fl o).1,
      c = NvCall.deviceGetCount ∨
      (∃ j, c = NvCall.deviceGetHandleByIndex j) ∨
      (callFam c = FamTag.sysfam ∧ fl.sysinfo = true) ∨
      (callFam c = FamTag.gpufam ∧ fl.gpuinfo = true) ∨
      (callFam c = FamTag.fanfam ∧ fl.fan = true) ∨
      callFam c = FamTag.otherdev := by
  intro c hc
  simp only [updateBody] at hc
  split at hc
  · simp only [List.mem_singleton] at hc
    exact Or.inl hc
  · split at hc
    · simp only [List.mem_cons] at hc
      rcases hc with rfl | hc2
      · exact Or.inl rfl
      · exact Or.inr (Or.inl (enumLoop_calls o _ 0 c hc2))
    · simp only [List.mem_cons, List.mem_append] at hc
      rcases hc with (rfl | hc2) | hc3
      · exact Or.inl rfl
      · exact Or.inr (Or.inl (enumLoop_calls o _ 0 c hc2))
      · rcases pstep_calls_subset hc3 with h | h
        · split at h
          · exact Or.inr (Or.inr (Or.inl ⟨sysInfoBlock_calls o c h, by assumption⟩))
          · simp only [List.not_mem_nil] at h
        · rcases deviceLoop_calls fl o _ 0 c h with hg | hf | ho
          · exact Or.inr (Or.inr (Or.inr (Or.inl hg)))
          · exact Or.inr (Or.inr (Or.inr (Or.inr (Or.inl hf))))
          · exact Or.inr (Or.inr (Or.inr (Or.inr (Or.inr ho))))

theorem updateBody_metrics (fl : Flags) (o : Nvml) :
    ∀ m ∈ (updateBody fl o).2.1,
      (descFam m.desc = FamTag.sysfam ∧ fl.sysinfo = true) ∨
      (((descFam m.desc = FamTag.gpufam ∧ fl.gpuinfo = true) ∨
        (descFam m.desc = FamTag.fanfam ∧ fl.fan = true) ∨
        descFam m.desc = FamTag.otherdev) ∧
       (∃ j, j < (enumLoop o 0 o.deviceGetCount.1).2.1.length ∧
         m.labels.head? = some (toString j)) ∧
       (enumLoop o 0 o.deviceGetCount.1).2.2 = none) := by
  intro m hm
  simp only [updateBody] at hm
  split at hm
  · simp only [List.not_mem_nil] at hm
  · split at hm
    · simp only [List.not_mem_nil] at hm
    · rcases pstep_metrics_subset hm with h | h
      · split at h
        · exact Or.inl ⟨sysInfoBlock_metrics o m h, by assumption⟩
        · simp only [List.not_mem_nil] at h
      · have hb := deviceLoop_metrics fl o _ 0 m h
        rcases hb.2 with ⟨j, hj, hlab⟩
        exact Or.inr ⟨hb.1, ⟨j, hj, by simpa using hlab⟩, by assumption⟩

/-! ## Shape of the update trace, and enumeration lemmas -/

theorem update_shape (fl : Flags) (o : Nvml) (h : o.nvInit = Ret.success) :
    update fl o =
      ((NvCall.nvInit :: (updateBody fl o).1) ++ [NvCall.shutdown],
        (updateBody fl o).2.1, (updateBody fl o).2.2) := by
  simp [update, h]

theorem shutdown_notin_updateBody (fl : Flags) (o : Nvml) :
    NvCall.shutdown ∉ (updateBody fl o).1 := by
  intro h
  rcases updateBody_calls fl o _ h with h1 | ⟨j, h1⟩ | ⟨h1, _⟩ | ⟨h1, _⟩ | ⟨h1, _⟩ | h1 <;>
    simp [callFam] at h1

theorem enumLoop_ok (o : Nvml) :
    ∀ n i, (∀ j, j < n → (o.deviceGetHandleByIndex (i + j)).2 = Ret.success) →
      enumLoop o i n =
        ((List.range n).map (fun j => NvCall.deviceGetHandleByIndex (i + j)),
         (List.range n).map (fun j => (o.deviceGetHandleByIndex (i + j)).1),
         none) := by
  intro n
  induction n with
  | zero =>
      intro i h
      simp [enumLoop]
  | succ n ih =>
      intro i h
      have h0 : (o.deviceGetHandleByIndex i).2 = Ret.success := by
        have := h 0 (Nat.succ_pos n)
        simpa using this
      have hrec := ih (i + 1) (fun j hj => by
        have := h (j + 1) (Nat.succ_lt_succ hj)
        have harith : i + (j + 1) = i + 1 + j := by omega
        rwa [harith] at this)
      have e1 : (List.range (n + 1)).map
            (fun j => NvCall.deviceGetHandleByIndex (i + j)) =
          NvCall.deviceGetHandleByIndex i ::
            (List.range n).map (fun j => NvCall.deviceGetHandleByIndex (i + 1 + j)) := by
        rw [List.range_succ_eq_map, List.map_cons, List.map_map]
        simp only [Nat.add_zero]
        congr 1
        apply List.map_congr_left
        intro j _
        simp only [Function.comp_apply]
        congr 1
        omega
      have e2 : (List.range (n + 1)).map
            (fun j => (o.deviceGetHandleByIndex (i + j)).1) =
          (o.deviceGetHandleByIndex i).1 ::
            (List.range n).map (fun j => (o.deviceGetHandleByIndex (i + 1 + j)).1) := by
        rw [List.range_succ_eq_map, List.map_cons, List.map_map]
        simp only [Nat.add_zero]
        congr 1
        apply List.map_congr_left
        intro j _
        simp only [Function.comp_apply]
        congr 2
        omega
      simp only [enumLoop, h0, ne_eq, not_true_eq_false, if_false, hrec, e1, e2]

theorem enumLoop_length (o : Nvml) :
    ∀ n i, (enumLoop o i n).2.2 = none → (enumLoop o i n).2.1.length = n := by
  intro n
  induction n with
  | zero =>
      intro i _
      simp [enumLoop]
  | succ n ih =>
      intro i he
      simp only [enumLoop] at he ⊢
      by_cases h0 : (o.deviceGetHandleByIndex i).2 ≠ Ret.success
      · rw [if_pos h0] at he
        simp at he
      · rw [if_neg h0] at he ⊢
        dsimp only at he ⊢
        rw [List.length_cons, ih (i + 1) he]

theorem enumLoop_fail (o : Nvml) :
    ∀ n i j, j < n →
      (∀ k, k < j → (o.deviceGetHandleByIndex (i + k)).2 = Ret.success) →
      (o.deviceGetHandleByIndex (i + j)).2 ≠ Ret.success →
      ∃ e, (enumLoop o i n).2.2 = some e := by
  intro n
  induction n with
  | zero =>
      intro i j hj
      exact absurd hj (Nat.not_lt_zero j)
  | succ n ih =>
      intro i j hj hk hfail
      by_cases h0 : (o.deviceGetHandleByIndex i).2 = Ret.success
      · cases j with
        | zero =>
            rw [Nat.add_zero] at hfail
            exact absurd h0 hfail
        | succ j =>
            have hrec := ih (i + 1) j (Nat.lt_of_succ_lt_succ hj)
              (fun k hk2 => by
                have := hk (k + 1) (Nat.succ_lt_succ hk2)
                have harith : i + (k + 1) = i + 1 + k := by omega
                rwa [harith] at this)
              (by
                have harith : i + (j + 1) = i + 1 + j := by omega
                rwa [harith] at hfail)
            rcases hrec with ⟨e, he⟩
            refine ⟨e, ?_⟩
            simp only [enumLoop, h0, ne_eq, not_true_eq_false, if_false]
            exact he
      · refine ⟨"unable to get device at index " ++ toString i ++ ": " ++
          errorString (o.deviceGetHandleByIndex i).2, ?_⟩
        simp only [enumLoop, ne_eq, h0, not_false_eq_true, if_true]

/-- If the first fragment failed, the sequenced error is its error. -/
theorem pstep_error_left {a b : PollResult} {e : String} (h : a.2.2 = some e) :
    (pstep a b).2.2 = some e := by
  rcases a with ⟨cs, ms, er⟩
  simp only at h
  subst h
  rfl

/-- If the first fragment succeeded, the sequenced error is the second's. -/
theorem pstep_error_right {a b : PollResult} (h : a.2.2 = none) :
    (pstep a b).2.2 = b.2.2 := by
  rcases a with ⟨cs, ms, er⟩
  simp only at h
  subst h
  rcases b with ⟨cs2, ms2, e2⟩
  rfl

/-- After a successful init, the shutdown call appears exactly once in the
poll's trace: it is never issued inside the body, and the deferred call
adds it once at the end. -/
theorem shutdown_count_update (fl : Flags) (o : Nvml)
    (h : o.nvInit = Ret.success) :
    List.count NvCall.shutdown (update fl o).1 = 1 := by
  rw [update_shape fl o h, List.count_append, List.count_cons]
  rw [List.count_eq_zero.mpr (shutdown_notin_updateBody fl o)]
  simp

/-- Case analysis on any call of a full poll. -/
theorem update_calls_cases (fl : Flags) (o : Nvml) :
    ∀ c ∈ (update fl o).1,
      callFam c = FamTag.session ∨
      (callFam c = FamTag.sysfam ∧ fl.sysinfo = true) ∨
      (callFam c = FamTag.gpufam ∧ fl.gpuinfo = true) ∨
      (callFam c = FamTag.fanfam ∧ fl.fan = true) ∨
      callFam c = FamTag.otherdev := by
  intro c hc
  by_cases hi : o.nvInit = Ret.success
  · rw [update_shape fl o hi] at hc
    simp only [List.mem_append, List.mem_cons, List.mem_singleton,
      List.not_mem_nil, or_false] at hc
    rcases hc with (rfl | hc2) | rfl
    · exact Or.inl rfl
    · rcases updateBody_calls fl o c hc2 with h | ⟨j, h⟩ | h | h | h | h
      · subst h
        exact Or.inl rfl
      · subst h
        exact Or.inl rfl
      · exact Or.inr (Or.inl h)
      · exact Or.inr (Or.inr (Or.inl h))
      · exact Or.inr (Or.inr (Or.inr (Or.inl h)))
      · exact Or.inr (Or.inr (Or.inr (Or.inr h)))
    · exact Or.inl rfl
  · rw [update, if_pos hi] at hc
    simp only [List.mem_singleton] at hc
    subst hc
    exact Or.inl rfl

/-- Case analysis on any emitted metric of a full poll. -/
theorem update_metrics_cases (fl : Flags) (o : Nvml) :
    ∀ m ∈ (update fl o).2.1,
      (descFam m.desc = FamTag.sysfam ∧ fl.sysinfo = true) ∨
      (((descFam m.desc = FamTag.gpufam ∧ fl.gpuinfo = true) ∨
        (descFam m.desc = FamTag.fanfam ∧ fl.fan = true) ∨
        descFam m.desc = FamTag.otherdev) ∧
       (∃ j, j < (enumLoop o 0 o.deviceGetCount.1).2.1.length ∧
         m.labels.head? = some (toString j)) ∧
       (enumLoop o 0 o.deviceGetCount.1).2.2 = none) := by
  intro m hm
  by_cases hi : o.nvInit = Ret.success
  · rw [update_shape fl o hi] at hm
    exact updateBody_metrics fl o m hm
  · rw [update, if_pos hi] at hm
    simp only [List.not_mem_nil] at hm

/-- The only descriptor of the sysinfo family is `sysinfo` itself. -/
theorem desc_of_sysfam {d : Desc} (h : descFam d = FamTag.sysfam) :
    d = Desc.sysinfo := by
  cases d <;> simp_all [descFam]

/-! ## Congruence: the result depends only on the queries actually issued -/

theorem sysInfoBlock_congr {o o' : Nvml}
    (h1 : o'.systemGetDriverVersion = o.systemGetDriverVersion)
    (h2 : o'.systemGetCudaDriverVersion = o.systemGetCudaDriverVersion)
    (h3 : o'.systemGetNVMLVersion = o.systemGetNVMLVersion) :
    sysInfoBlock o' = sysInfoBlock o := by
  simp only [sysInfoBlock, h1, h2, h3]

theorem gpuInfoBlock_congr {o o' : Nvml}
    (h1 : o'.getUUID = o.getUUID) (h2 : o'.getName = o.getName)
    (h3 : o'.getBusType = o.getBusType) :
    ∀ index d, gpuInfoBlock o' index d = gpuInfoBlock o index d := by
  intro index d
  simp only [gpuInfoBlock, h1, h2, h3]

theorem fanLoop_congr {o o' : Nvml} (hfs : o'.getFanSpeed = o.getFanSpeed) :
    ∀ fuel index d mn mx f,
      fanLoop o' index d mn mx f fuel = fanLoop o index d mn mx f fuel := by
  intro fuel
  induction fuel with
  | zero =>
      intro index d mn mx f
      rfl
  | succ n ih =>
      intro index d mn mx f
      simp only [fanLoop, hfs, ih]

theorem fanBlock_congr {o o' : Nvml}
    (h1 : o'.getNumFans = o.getNumFans)
    (h2 : o'.getMinMaxFanSpeed = o.getMinMaxFanSpeed)
    (h3 : o'.getFanSpeed = o.getFanSpeed) :
    ∀ index d, fanBlock o' index d = fanBlock o index d := by
  intro index d
  simp only [fanBlock, h1, h2, fanLoop_congr h3]

theorem appClkStep_congr {o o' : Nvml}
    (h : o'.getApplicationsClock = o.getApplicationsClock) :
    ∀ index d t, appClkStep o' index d t = appClkStep o index d t := by
  intro index d t
  simp only [appClkStep, h]

theorem clkStep_congr {o o' : Nvml} (h : o'.getClock = o.getClock) :
    ∀ index d t tt, clkStep o' index d t tt = clkStep o index d t tt := by
  intro index d t tt
  simp only [clkStep, h]

theorem clkIdLoop_congr {o o' : Nvml} (h : o'.getClock = o.getClock) :
    ∀ fuel index d t tt,
      clkIdLoop o' index d t tt fuel = clkIdLoop o index d t tt fuel := by
  intro fuel
  induction fuel with
  | zero =>
      intro index d t tt
      rfl
  | succ n ih =>
      intro index d t tt
      simp only [clkIdLoop, clkStep_congr h, ih]

theorem clockTypeStep_congr {o o' : Nvml}
    (h1 : o'.getApplicationsClock = o.getApplicationsClock)
    (h2 : o'.getClock = o.getClock) :
    ∀ index d t, clockTypeStep o' index d t = clockTypeStep o index d t := by
  intro index d t
  simp only [clockTypeStep, appClkStep_congr h1, clkIdLoop_congr h2]

theorem clockTypeLoop_congr {o o' : Nvml}
    (h1 : o'.getApplicationsClock = o.getApplicationsClock)
    (h2 : o'.getClock = o.getClock) :
    ∀ fuel index d t,
      clockTypeLoop o' index d t fuel = clockTypeLoop o index d t fuel := by
  intro fuel
  induction fuel with
  | zero =>
      intro index d t
      rfl
  | succ n ih =>
      intro index d t
      simp only [clockTypeLoop, clockTypeStep_congr h1 h2, ih]

theorem clockBlock_congr {o o' : Nvml}
    (h1 : o'.getApplicationsClock = o.getApplicationsClock)
    (h2 : o'.getClock = o.getClock) :
    ∀ index d, clockBlock o' index d = clockBlock o index d := by
  intro index d
  simp only [clockBlock, clockTypeLoop_congr h1 h2]

theorem computeModeBlock_congr {o o' : Nvml}
    (h : o'.getComputeMode = o.getComputeMode) :
    ∀ index d, computeModeBlock o' index d = computeModeBlock o index d := by
  intro index d
  simp only [computeModeBlock, h]

theorem perfBlock_congr {o o' : Nvml}
    (h : o'.getPerformanceState = o.getPerformanceState) :
    ∀ index d, perfBlock o' index d = perfBlock o index d := by
  intro index d
  simp only [perfBlock, h]

theorem persisModeBlock_congr {o o' : Nvml}
    (h : o'.getPersistenceMode = o.getPersistenceMode) :
    ∀ index d, persisModeBlock o' index d = persisModeBlock o index d := by
  intro index d
  simp only [persisModeBlock, h]

theorem utilBlock_congr {o o' : Nvml}
    (h : o'.getUtilizationRates = o.getUtilizationRates) :
    ∀ index d, utilBlock o' index d = utilBlock o index d := by
  intro index d
  simp only [utilBlock, h]

theorem tempLoop_congr {o o' : Nvml} (h : o'.getTemperature = o.getTemperature) :
    ∀ fuel index d t, tempLoop o' index d t fuel = tempLoop o index d t fuel := by
  intro fuel
  induction fuel with
  | zero =>
      intro index d t
      rfl
  | succ n ih =>
      intro index d t
      simp only [tempLoop, h, ih]

theorem tempBlock_congr {o o' : Nvml} (h : o'.getTemperature = o.getTemperature) :
    ∀ index d, tempBlock o' index d = tempBlock o index d := by
  intro index d
  simp only [tempBlock, tempLoop_congr h]

theorem enforcedLimitStep_congr {o o' : Nvml}
    (h : o'.getEnforcedPowerLimit = o.getEnforcedPowerLimit) :
    ∀ index d, enforcedLimitStep o' index d = enforcedLimitStep o index d := by
  intro index d
  simp only [enforcedLimitStep, h]

theorem powerBlock_congr {o o' : Nvml}
    (h1 : o'.getPowerUsage = o.getPowerUsage)
    (h2 : o'.getEnforcedPowerLimit = o.getEnforcedPowerLimit) :
    ∀ index d, powerBlock o' index d = powerBlock o index d := by
  intro index d
  simp only [powerBlock, h1, enforcedLimitStep_congr h2]

theorem memBlock_congr {o o' : Nvml} (h : o'.getMemoryInfo = o.getMemoryInfo) :
    ∀ index d, memBlock o' index d = memBlock o index d := by
  intro index d
  simp only [memBlock, h]

theorem deviceUpdate_congr (fl : Flags) {o o' : Nvml}
    (hgpu : fl.gpuinfo = true → o'.getUUID = o.getUUID ∧ o'.getName = o.getName ∧
      o'.getBusType = o.getBusType)
    (hfan : fl.fan = true → o'.getNumFans = o.getNumFans ∧
      o'.getMinMaxFanSpeed = o.getMinMaxFanSpeed ∧ o'.getFanSpeed = o.getFanSpeed)
    (h4 : o'.getApplicationsClock = o.getApplicationsClock)
    (h5 : o'.getClock = o.getClock)
    (h6 : o'.getComputeMode = o.getComputeMode)
    (h7 : o'.getPerformanceState = o.getPerformanceState)
    (h8 : o'.getPersistenceMode = o.getPersistenceMode)
    (h9 : o'.getUtilizationRates = o.getUtilizationRates)
    (h10 : o'.getTemperature = o.getTemperature)
    (h11 : o'.getPowerUsage = o.getPowerUsage)
    (h12 : o'.getEnforcedPowerLimit = o.getEnforcedPowerLimit)
    (h13 : o'.getMemoryInfo = o.getMemoryInfo) :
    ∀ i d, deviceUpdate fl o' i d = deviceUpdate fl o i d := by
  intro i d
  have hg : (if fl.gpuinfo then gpuInfoBlock o' (toString i) d else ([], [], none)) =
      (if fl.gpuinfo then gpuInfoBlock o (toString i) d else ([], [], none)) := by
    cases hfl : fl.gpuinfo with
    | false => simp
    | true =>
        obtain ⟨a, b, c⟩ := hgpu hfl
        simp only [if_true]
        exact gpuInfoBlock_congr a b c (toString i) d
  have hf : (if fl.fan then fanBlock o' (toString i) d else ([], [], none)) =
      (if fl.fan then fanBlock o (toString i) d else ([], [], none)) := by
    cases hfl : fl.fan with
    | false => simp
    | true =>
        obtain ⟨a, b, c⟩ := hfan hfl
        simp only [if_true]
        exact fanBlock_congr a b c (toString i) d
  simp only [deviceUpdate, hg, hf, clockBlock_congr h4 h5,
    computeModeBlock_congr h6, perfBlock_congr h7, persisModeBlock_congr h8,
    utilBlock_congr h9, tempBlock_congr h10, powerBlock_congr h11 h12,
    memBlock_congr h13]

theorem deviceLoop_congr (fl : Flags) {o o' : Nvml}
    (hgpu : fl.gpuinfo = true → o'.getUUID = o.getUUID ∧ o'.getName = o.getName ∧
      o'.getBusType = o.getBusType)
    (hfan : fl.fan = true → o'.getNumFans = o.getNumFans ∧
      o'.getMinMaxFanSpeed = o.getMinMaxFanSpeed ∧ o'.getFanSpeed = o.getFanSpeed)
    (h4 : o'.getApplicationsClock = o.getApplicationsClock)
    (h5 : o'.getClock = o.getClock)
    (h6 : o'.getComputeMode = o.getComputeMode)
    (h7 : o'.getPerformanceState = o.getPerformanceState)
    (h8 : o'.getPersistenceMode = o.getPersistenceMode)
    (h9 : o'.getUtilizationRates = o.getUtilizationRates)
    (h10 : o'.getTemperature = o.getTemperature)
    (h11 : o'.getPowerUsage = o.getPowerUsage)
    (h12 : o'.getEnforcedPowerLimit = o.getEnforcedPowerLimit)
    (h13 : o'.getMemoryInfo = o.getMemoryInfo) :
    ∀ ds i, deviceLoop fl o' i ds = deviceLoop fl o i ds := by
  intro ds
  induction ds with
  | nil =>
      intro i
      rfl
  | cons d ds ih =>
      intro i
      simp only [deviceLoop,
        deviceUpdate_congr fl hgpu hfan h4 h5 h6 h7 h8 h9 h10 h11 h12 h13, ih]

theorem enumLoop_congr {o o' : Nvml}
    (h : o'.deviceGetHandleByIndex = o.deviceGetHandleByIndex) :
    ∀ n i, enumLoop o' i n = enumLoop o i n := by
  intro n
  induction n with
  | zero =>
      intro i
      rfl
  | succ n ih =>
      intro i
      simp only [enumLoop, h, ih]

theorem updateBody_congr (fl : Flags) {o o' : Nvml}
    (h2 : o'.deviceGetCount = o.deviceGetCount)
    (h3 : o'.deviceGetHandleByIndex = o.deviceGetHandleByIndex)
    (hsys : fl.sysinfo = true → o'.systemGetDriverVersion = o.systemGetDriverVersion ∧
      o'.systemGetCudaDriverVersion = o.systemGetCudaDriverVersion ∧
      o'.systemGetNVMLVersion = o.systemGetNVMLVersion)
    (hgpu : fl.gpuinfo = true → o'.getUUID = o.getUUID ∧ o'.getName = o.getName ∧
      o'.getBusType = o.getBusType)
    (hfan : fl.fan = true → o'.getNumFans = o.getNumFans ∧
      o'.getMinMaxFanSpeed = o.getMinMaxFanSpeed ∧ o'.getFanSpeed = o.getFanSpeed)
    (h4 : o'.getApplicationsClock = o.getApplicationsClock)
    (h5 : o'.getClock = o.getClock)
    (h6 : o'.getComputeMode = o.getComputeMode)
    (h7 : o'.getPerformanceState = o.getPerformanceState)
    (h8 : o'.getPersistenceMode = o.getPersistenceMode)
    (h9 : o'.getUtilizationRates = o.getUtilizationRates)
    (h10 : o'.getTemperature = o.getTemperature)
    (h11 : o'.getPowerUsage = o.getPowerUsage)
    (h12 : o'.getEnforcedPowerLimit = o.getEnforcedPowerLimit)
    (h13 : o'.getMemoryInfo = o.getMemoryInfo) :
    updateBody fl o' = updateBody fl o := by
  have hs : (if fl.sysinfo then sysInfoBlock o' else ([], [], none)) =
      (if fl.sysinfo then sysInfoBlock o else ([], [], none)) := by
    cases hfl : fl.sysinfo with
    | false => simp
    | true =>
        obtain ⟨a, b, c⟩ := hsys hfl
        simp only [if_true]
        exact sysInfoBlock_congr a b c
  simp only [updateBody, h2, enumLoop_congr h3, hs,
    deviceLoop_congr fl hgpu hfan h4 h5 h6 h7 h8 h9 h10 h11 h12 h13]

theorem update_congr (fl : Flags) {o o' : Nvml}
    (h1 : o'.nvInit = o.nvInit)
    (h2 : o'.deviceGetCount = o.deviceGetCount)
    (h3 : o'.deviceGetHandleByIndex = o.deviceGetHandleByIndex)
    (hsys : fl.sysinfo = true → o'.systemGetDriverVersion = o.systemGetDriverVersion ∧
      o'.systemGetCudaDriverVersion = o.systemGetCudaDriverVersion ∧
      o'.systemGetNVMLVersion = o.systemGetNVMLVersion)
    (hgpu : fl.gpuinfo = true → o'.getUUID = o.getUUID ∧ o'.getName = o.getName ∧
      o'.getBusType = o.getBusType)
    (hfan : fl.fan = true → o'.getNumFans = o.getNumFans ∧
      o'.getMinMaxFanSpeed = o.getMinMaxFanSpeed ∧ o'.getFanSpeed = o.getFanSpeed)
    (h4 : o'.getApplicationsClock = o.getApplicationsClock)
    (h5 : o'.getClock = o.getClock)
    (h6 : o'.getComputeMode = o.getComputeMode)
    (h7 : o'.getPerformanceState = o.getPerformanceState)
    (h8 : o'.getPersistenceMode = o.getPersistenceMode)
    (h9 : o'.getUtilizationRates = o.getUtilizationRates)
    (h10 : o'.getTemperature = o.getTemperature)
    (h11 : o'.getPowerUsage = o.getPowerUsage)
    (h12 : o'.getEnforcedPowerLimit = o.getEnforcedPowerLimit)
    (h13 : o'.getMemoryInfo = o.getMemoryInfo) :
    update fl o' = update fl o := by
  simp only [update, h1,
    updateBody_congr fl h2 h3 hsys hgpu hfan h4 h5 h6 h7 h8 h9 h10 h11 h12 h13]

/-! ## Claim theorems -/

/-- C1 (counterexample): the claim that EVERY enum-to-label mapping
function returns "UNKNOWN" on every code outside its known set fails on
the code: `getPstatesString` formats the unknown code `-1` as `"P-1"`,
and `getPersisModeString` maps the unknown code `2` to `"ON"`; neither
returns `"UNKNOWN"`. -/
theorem C1_counterexample :
    getPstatesString (-1) = "P-1" ∧ getPstatesString (-1) ≠ "UNKNOWN" ∧
    getPersisModeString 2 = "ON" ∧ getPersisModeString 2 ≠ "UNKNOWN" := by
  refine ⟨?_, ?_, ?_, ?_⟩ <;> decide

/-- C1 (amended): the switch-based mapping functions (bus type, clock
type, clock id, compute mode, temperature sensor) return "UNKNOWN" for
every code outside their known sets and never fail; but the
performance-state mapping returns "UNKNOWN" only at `PSTATE_UNKNOWN` (32)
and formats every other code — known or not — as "P{code}", and the
persistence-mode mapping returns "OFF" at `FEATURE_DISABLED` and "ON" for
every other code; all are total functions. -/
theorem C1_mapping_tables :
    (∀ b : Int, b ∉ ([0, 1, 2, 3, 4] : List Int) → getBusTypeString b = "UNKNOWN") ∧
    (∀ t : Int, t ∉ ([0, 1, 2, 3] : List Int) → getClockTypeString t = "UNKNOWN") ∧
    (∀ t : Int, t ∉ ([0, 1, 2, 3] : List Int) → getClockIDString t = "UNKNOWN") ∧
    (∀ c : Int, c ∉ ([0, 1, 2, 3] : List Int) → getComputeModeString c = "UNKNOWN") ∧
    (∀ t : Int, t ≠ 0 → getTemperatureSensorString t = "UNKNOWN") ∧
    (∀ s : Int, s ≠ PSTATE_UNKNOWN → getPstatesString s = "P" ++ toString s) ∧
    getPstatesString PSTATE_UNKNOWN = "UNKNOWN" ∧
    (∀ s : Int, s ≠ FEATURE_DISABLED → getPersisModeString s = "ON") ∧
    getPersisModeString FEATURE_DISABLED = "OFF" := by
  refine ⟨?_, ?_, ?_, ?_, ?_, ?_, by decide, ?_, by decide⟩
  · intro b hb
    simp only [List.mem_cons, List.not_mem_nil, or_false, not_or] at hb
    obtain ⟨h0, h1, h2, h3, h4⟩ := hb
    simp [getBusTypeString, BUS_TYPE_AGP, BUS_TYPE_FPCI, BUS_TYPE_PCI,
      BUS_TYPE_PCIE, BUS_TYPE_UNKNOWN, h0, h1, h2, h3, h4]
  · intro t ht
    simp only [List.mem_cons, List.not_mem_nil, or_false, not_or] at ht
    obtain ⟨h0, h1, h2, h3⟩ := ht
    simp [getClockTypeString, CLOCK_GRAPHICS, CLOCK_SM, CLOCK_MEM, CLOCK_VIDEO,
      h0, h1, h2, h3]
  · intro t ht
    simp only [List.mem_cons, List.not_mem_nil, or_false, not_or] at ht
    obtain ⟨h0, h1, h2, h3⟩ := ht
    simp [getClockIDString, CLOCK_ID_CURRENT, CLOCK_ID_APP_CLOCK_TARGET,
      CLOCK_ID_APP_CLOCK_DEFAULT, CLOCK_ID_CUSTOMER_BOOST_MAX, h0, h1, h2, h3]
  · intro c hc
    simp only [List.mem_cons, List.not_mem_nil, or_false, not_or] at hc
    obtain ⟨h0, h1, h2, h3⟩ := hc
    simp [getComputeModeString, COMPUTEMODE_DEFAULT, COMPUTEMODE_EXCLUSIVE_THREAD,
      COMPUTEMODE_PROHIBITED, COMPUTEMODE_EXCLUSIVE_PROCESS, h0, h1, h2, h3]
  · intro t ht
    simp [getTemperatureSensorString, TEMPERATURE_GPU, ht]
  · intro s hs
    simp only [PSTATE_UNKNOWN] at hs
    simp [getPstatesString, PSTATE_UNKNOWN, Ne.symm hs]
  · intro s hs
    simp only [FEATURE_DISABLED] at hs
    simp [getPersisModeString, FEATURE_DISABLED, hs]

/-- C1 witness: the amended mapping-table facts at concrete inputs. -/
theorem C1_witness :
    getBusTypeString 9 = "UNKNOWN" ∧ getClockTypeString 9 = "UNKNOWN" ∧
    getClockIDString 9 = "UNKNOWN" ∧ getComputeModeString 9 = "UNKNOWN" ∧
    getTemperatureSensorString 9 = "UNKNOWN" ∧ getPstatesString 7 = "P7" ∧
    getPersisModeString 5 = "ON" :=
  ⟨C1_mapping_tables.1 9 (by decide), C1_mapping_tables.2.1 9 (by decide),
   C1_mapping_tables.2.2.1 9 (by decide), C1_mapping_tables.2.2.2.1 9 (by decide),
   C1_mapping_tables.2.2.2.2.1 9 (by decide),
   C1_mapping_tables.2.2.2.2.2.1 7 (by decide),
   C1_mapping_tables.2.2.2.2.2.2.2.1 5 (by decide)⟩

/-- C10 (confirmed): the persistence-mode mapping returns "ON" for every
code other than `FEATURE_DISABLED` (which gives "OFF"), never "UNKNOWN";
hence every emitted `persis_mode` observation carries a mode label that
is exactly "ON" or "OFF". -/
theorem C10_persis_mode_label :
    (∀ s : Int, s ≠ FEATURE_DISABLED → getPersisModeString s = "ON") ∧
    getPersisModeString FEATURE_DISABLED = "OFF" ∧
    (∀ s : Int, getPersisModeString s ≠ "UNKNOWN") ∧
    (∀ o index d, ∀ m ∈ (persisModeBlock o index d).2.1,
      m.labels = [index, "ON"] ∨ m.labels = [index, "OFF"]) := by
  refine ⟨?_, by decide, ?_, ?_⟩
  · intro s hs
    simp only [FEATURE_DISABLED] at hs
    simp [getPersisModeString, FEATURE_DISABLED, hs]
  · intro s
    by_cases hs : s = (0 : Int) <;>
      simp [getPersisModeString, FEATURE_DISABLED, hs]
  · intro o index d m hm
    simp only [persisModeBlock] at hm
    split at hm
    · simp only [List.not_mem_nil] at hm
    · simp only [List.mem_singleton] at hm
      subst hm
      by_cases h : (o.getPersistenceMode d).1 = (0 : Int)
      · exact Or.inr (by simp [getPersisModeString, FEATURE_DISABLED, h])
      · exact Or.inl (by simp [getPersisModeString, FEATURE_DISABLED, h])

/-- C10 witness: the persistence-mode facts at concrete inputs. -/
theorem C10_witness :
    getPersisModeString 5 = "ON" ∧
    ((⟨Desc.persisMode, 1, ["0", "ON"]⟩ : Metric).labels = ["0", "ON"] ∨
     (⟨Desc.persisMode, 1, ["0", "ON"]⟩ : Metric).labels = ["0", "OFF"]) :=
  ⟨C10_persis_mode_label.1 5 (by decide),
   C10_persis_mode_label.2.2.2 oracleA "0" 0
     ⟨Desc.persisMode, 1, ["0", "ON"]⟩ (by decide)⟩

/-- C5 (confirmed): the derived CUDA version string is
`"{raw / 1000}.{(raw % 1000) / 10}"` in Go's truncated integer
arithmetic; raw `11070` yields exactly "11.7" and raw `12020` yields
exactly "12.2", and the sysinfo observation carries the derived string as
its middle label. -/
theorem C5_cuda_version :
    (∀ raw : Int, cudaVersionString raw =
      toString (Int.tdiv raw 1000) ++ "." ++
        toString (Int.tdiv (Int.tmod raw 1000) 10)) ∧
    cudaVersionString 11070 = "11.7" ∧
    cudaVersionString 12020 = "12.2" ∧
    (∀ o dv nv, o.systemGetDriverVersion = (dv, Ret.success) →
      o.systemGetCudaDriverVersion = (11070, Ret.success) →
      o.systemGetNVMLVersion = (nv, Ret.success) →
      (sysInfoBlock o).2.1 = [⟨Desc.sysinfo, 1, [dv, "11.7", nv]⟩]) := by
  refine ⟨fun raw => rfl, by decide, by decide, ?_⟩
  intro o dv nv h1 h2 h3
  have hc : cudaVersionString 11070 = "11.7" := by decide
  simp [sysInfoBlock, h1, h2, h3, hc]

/-- C5 witness: the sysinfo observation of the healthy oracle carries
the derived CUDA string "11.7". -/
theorem C5_witness :
    (sysInfoBlock oracleA).2.1 =
      [⟨Desc.sysinfo, 1, ["535.104.05", "11.7", "11.535.104"]⟩] :=
  C5_cuda_version.2.2.2 oracleA "535.104.05" "11.535.104" rfl rfl rfl

/-- C9 (confirmed): a poll is a pure function of the device-access
responses and the enable flags — two executions with identical oracles
and identical flags emit the identical observation sequence, in the same
order. -/
theorem C9_deterministic (fl1 fl2 : Flags) (o1 o2 : Nvml)
    (hf : fl1 = fl2) (ho : o1 = o2) :
    (update fl1 o1).2.1 = (update fl2 o2).2.1 := by
  subst hf
  subst ho
  rfl

/-- C9 witness: determinism instantiated at a concrete configuration. -/
theorem C9_witness :
    (update flagsAll oracleA).2.1 = (update flagsAll oracleA).2.1 :=
  C9_deterministic flagsAll flagsAll oracleA oracleA rfl rfl

/-- C3 (confirmed): for the applications-clock query at each domain, the
clock query at each (domain, source) pair, and the enforced-power-limit
query: `NOT_SUPPORTED` skips the sub-metric with no observation and no
error (poll continues), success emits the observation, and any other
error yields a hard error; a hard error in the clock block aborts the
whole per-device poll. -/
theorem C3_capability_soft_skip :
    (∀ o index d t, (o.getApplicationsClock d t).2 = Ret.errNotSupported →
      appClkStep o index d t = ([NvCall.getApplicationsClock d t], [], none)) ∧
    (∀ o index d t v, o.getApplicationsClock d t = (v, Ret.success) →
      appClkStep o index d t = ([NvCall.getApplicationsClock d t],
        [⟨Desc.appclk, v, [index, getClockTypeString (t : Int)]⟩], none)) ∧
    (∀ o index d t c, (o.getApplicationsClock d t).2 = Ret.errOther c →
      ∃ e, (appClkStep o index d t).2.2 = some e) ∧
    (∀ o index d t tt, (o.getClock d t tt).2 = Ret.errNotSupported →
      clkStep o index d t tt = ([NvCall.getClock d t tt], [], none)) ∧
    (∀ o index d t tt v, o.getClock d t tt = (v, Ret.success) →
      clkStep o index d t tt = ([NvCall.getClock d t tt],
        [⟨Desc.clk, v, [index, getClockTypeString (t : Int),
          getClockIDString (tt : Int)]⟩], none)) ∧
    (∀ o index d t tt c, (o.getClock d t tt).2 = Ret.errOther c →
      ∃ e, (clkStep o index d t tt).2.2 = some e) ∧
    (∀ o index d, (o.getEnforcedPowerLimit d).2 = Ret.errNotSupported →
      enforcedLimitStep o index d = ([NvCall.getEnforcedPowerLimit d], [], none)) ∧
    (∀ o index d v, o.getEnforcedPowerLimit d = (v, Ret.success) →
      enforcedLimitStep o index d = ([NvCall.getEnforcedPowerLimit d],
        [⟨Desc.powerEnforceLimit, v, [index]⟩], none)) ∧
    (∀ o index d c, (o.getEnforcedPowerLimit d).2 = Ret.errOther c →
      ∃ e, (enforcedLimitStep o index d).2.2 = some e) ∧
    (∀ fl o i d e, fl.gpuinfo = false → fl.fan = false →
      (clockBlock o (toString i) d).2.2 = some e →
      (deviceUpdate fl o i d).2.2 = some e) := by
  refine ⟨?_, ?_, ?_, ?_, ?_, ?_, ?_, ?_, ?_, ?_⟩
  · intro o index d t h
    simp [appClkStep, h]
  · intro o index d t v h
    simp [appClkStep, h]
  · intro o index d t c h
    exact ⟨"unable to get GPU " ++ index ++ " Applications Clock Type " ++
      getClockTypeString (t : Int) ++ " Info: " ++ errorString (Ret.errOther c),
      by simp [appClkStep, h]⟩
  · intro o index d t tt h
    simp [clkStep, h]
  · intro o index d t tt v h
    simp [clkStep, h]
  · intro o index d t tt c h
    exact ⟨"unable to get GPU " ++ index ++ " Clock Type " ++
      getClockTypeString (t : Int) ++ " ID " ++ getClockIDString (tt : Int) ++
      " Info: " ++ errorString (Ret.errOther c), by simp [clkStep, h]⟩
  · intro o index d h
    simp [enforcedLimitStep, h]
  · intro o index d v h
    simp [enforcedLimitStep, h]
  · intro o index d c h
    exact ⟨"unable to get GPU " ++ index ++
      " Power Enforced Limitation Value: " ++ errorString (Ret.errOther c),
      by simp [enforcedLimitStep, h]⟩
  · intro fl o i d e hg hf hcb
    simp only [deviceUpdate, hg, hf, Bool.false_eq_true, if_false, pstep_nil]
    exact pstep_error_left hcb

/-- C3 witness: the three-way policy at concrete oracles. -/
theorem C3_witness :
    appClkStep oracleClockNS "0" 0 0 = ([NvCall.getApplicationsClock 0 0], [], none) ∧
    clkStep oracleClockNS "0" 0 0 0 = ([NvCall.getClock 0 0 0], [], none) ∧
    enforcedLimitStep oracleClockNS "0" 0 =
      ([NvCall.getEnforcedPowerLimit 0], [], none) ∧
    appClkStep oracleA "0" 0 1 = ([NvCall.getApplicationsClock 0 1],
      [⟨Desc.appclk, 1001, ["0", getClockTypeString 1]⟩], none) ∧
    enforcedLimitStep oracleA "0" 0 = ([NvCall.getEnforcedPowerLimit 0],
      [⟨Desc.powerEnforceLimit, 250000, ["0"]⟩], none) ∧
    (∃ e, (appClkStep oracleBadClock "0" 0 0).2.2 = some e) ∧
    (∃ e, (deviceUpdate flagsNone oracleBadClock 0 0).2.2 = some e) :=
  ⟨C3_capability_soft_skip.1 oracleClockNS "0" 0 0 rfl,
   C3_capability_soft_skip.2.2.2.1 oracleClockNS "0" 0 0 0 rfl,
   C3_capability_soft_skip.2.2.2.2.2.2.1 oracleClockNS "0" 0 rfl,
   C3_capability_soft_skip.2.1 oracleA "0" 0 1 1001 rfl,
   C3_capability_soft_skip.2.2.2.2.2.2.2.1 oracleA "0" 0 250000 rfl,
   C3_capability_soft_skip.2.2.1 oracleBadClock "0" 0 0 9 rfl,
   ⟨_, C3_capability_soft_skip.2.2.2.2.2.2.2.2.2 flagsNone oracleBadClock 0 0
     ("unable to get GPU 0 Applications Clock Type GRAPHICS Info: UNKNOWN ERROR 9")
     rfl rfl (by decide)⟩⟩

/-- C8 (confirmed): the temperature query has no unsupported-capability
soft path — any non-success status (including `NOT_SUPPORTED`) makes the
temperature block fail with an error and no observation, success emits
exactly one observation per sensor labeled with the mapped sensor name,
and a temperature failure aborts the whole per-device poll. -/
theorem C8_temperature_hard :
    (∀ o index d r, (o.getTemperature d 0).2 = r → r ≠ Ret.success →
      (tempBlock o index d).2.1 = [] ∧
      (tempBlock o index d).2.2 =
        some ("unable to get GPU " ++ index ++ " Temperature Sensor " ++
          getTemperatureSensorString 0 ++ " Value: " ++ errorString r)) ∧
    (∀ o index d v, o.getTemperature d 0 = (v, Ret.success) →
      tempBlock o index d = ([NvCall.getTemperature d 0],
        [⟨Desc.temp, v, [index, getTemperatureSensorString 0]⟩], none)) ∧
    (∀ fl o i d e, fl.gpuinfo = false → fl.fan = false →
      (clockBlock o (toString i) d).2.2 = none →
      (computeModeBlock o (toString i) d).2.2 = none →
      (perfBlock o (toString i) d).2.2 = none →
      (persisModeBlock o (toString i) d).2.2 = none →
      (utilBlock o (toString i) d).2.2 = none →
      (tempBlock o (toString i) d).2.2 = some e →
      (deviceUpdate fl o i d).2.2 = some e) := by
  refine ⟨?_, ?_, ?_⟩
  · intro o index d r h hr
    subst h
    constructor <;> simp [tempBlock, TEMPERATURE_COUNT, tempLoop, hr]
  · intro o index d v h
    simp [tempBlock, TEMPERATURE_COUNT, tempLoop, h, pstep]
  · intro fl o i d e hg hf h1 h2 h3 h4 h5 h6
    simp only [deviceUpdate, hg, hf, Bool.false_eq_true, if_false, pstep_nil]
    rw [pstep_error_right h1, pstep_error_right h2, pstep_error_right h3,
      pstep_error_right h4, pstep_error_right h5]
    exact pstep_error_left h6

/-- C8 witness: `NOT_SUPPORTED` on temperature fails the block and the
device poll; success emits exactly one labeled observation. -/
theorem C8_witness :
    (tempBlock oracleTempNS "0" 0).2.1 = [] ∧
    tempBlock oracleA "0" 0 = ([NvCall.getTemperature 0 0],
      [⟨Desc.temp, 55, ["0", getTemperatureSensorString 0]⟩], none) ∧
    (∃ e, (deviceUpdate flagsNone oracleTempNS 0 0).2.2 = some e) :=
  ⟨(C8_temperature_hard.1 oracleTempNS "0" 0 Ret.errNotSupported rfl
      (by decide)).1,
   C8_temperature_hard.2.1 oracleA "0" 0 55 rfl,
   ⟨_, C8_temperature_hard.2.2 flagsNone oracleTempNS 0 0 _ rfl rfl
     (by decide) (by decide) (by decide) (by decide) (by decide) rfl⟩⟩

/-- C4 (counterexample): with the fan family enabled, one device and fan
count 2 (all fan queries succeeding), the poll emits 2 `fan_speed`
observations but ALSO 2 `min_fan_speed` and 2 `max_fan_speed`
observations (one per fan-loop iteration), not exactly one of each as
claimed. -/
theorem C4_counterexample :
    (update flagsFanOnly oracleA).2.2 = none ∧
    List.countP (fun m => decide (m.desc = Desc.fanSpeed))
      (update flagsFanOnly oracleA).2.1 = 2 ∧
    List.countP (fun m => decide (m.desc = Desc.minFanSpeed))
      (update flagsFanOnly oracleA).2.1 = 2 ∧
    List.countP (fun m => decide (m.desc = Desc.maxFanSpeed))
      (update flagsFanOnly oracleA).2.1 = 2 ∧
    List.countP (fun m => decide (m.desc = Desc.minFanSpeed))
      (update flagsFanOnly oracleA).2.1 ≠ 1 := by
  refine ⟨?_, ?_, ?_, ?_, ?_⟩ <;> decide

/-- C4 (amended): fan count 0 yields zero fan observations and no error;
fan count 2 with all fan queries succeeding yields exactly 2 `fan_speed`
observations (one per fan index) plus 2 `min_fan_speed` and 2
`max_fan_speed` observations — the min/max pair is re-emitted inside
every fan iteration. -/
theorem C4_fan_observations :
    (∀ o index d, o.getNumFans d = (0, Ret.success) →
      fanBlock o index d = ([NvCall.getNumFans d], [], none)) ∧
    (∀ o index d mn mx s0 s1,
      o.getNumFans d = (2, Ret.success) →
      o.getMinMaxFanSpeed d = (mn, mx, Ret.success) →
      o.getFanSpeed d 0 = (s0, Ret.success) →
      o.getFanSpeed d 1 = (s1, Ret.success) →
      (fanBlock o index d).2.1 =
        [⟨Desc.minFanSpeed, mn, [index]⟩, ⟨Desc.maxFanSpeed, mx, [index]⟩,
         ⟨Desc.fanSpeed, s0, [index, "0"]⟩,
         ⟨Desc.minFanSpeed, mn, [index]⟩, ⟨Desc.maxFanSpeed, mx, [index]⟩,
         ⟨Desc.fanSpeed, s1, [index, "1"]⟩] ∧
      (fanBlock o index d).2.2 = none) := by
  constructor
  · intro o index d h
    simp [fanBlock, h]
  · intro o index d mn mx s0 s1 h1 h2 h3 h4
    refine ⟨?_, ?_⟩ <;> simp [fanBlock, fanLoop, h1, h2, h3, h4]
    decide

/-- C4 witness: the amended fan behavior at concrete oracles. -/
theorem C4_witness :
    fanBlock oracleNoFan "0" 0 = ([NvCall.getNumFans 0], [], none) ∧
    (fanBlock oracleA "0" 0).2.1 =
      [⟨Desc.minFanSpeed, 10, ["0"]⟩, ⟨Desc.maxFanSpeed, 100, ["0"]⟩,
       ⟨Desc.fanSpeed, 30, ["0", "0"]⟩,
       ⟨Desc.minFanSpeed, 10, ["0"]⟩, ⟨Desc.maxFanSpeed, 100, ["0"]⟩,
       ⟨Desc.fanSpeed, 31, ["0", "1"]⟩] :=
  ⟨C4_fan_observations.1 oracleNoFan "0" 0 rfl,
   (C4_fan_observations.2 oracleA "0" 0 10 100 30 31 rfl rfl rfl rfl).1⟩

/-- C2 (confirmed): once `nvml.Init` succeeds, the deferred
`nvml.Shutdown` is issued exactly once on every exit path (and never
before a successful init); the shutdown's status can never change the
poll's metrics or error; and a hard `QueryError` short-circuits — an
errored fragment absorbs everything sequenced after it, and concretely a
hard driver-version failure ends the poll with no metrics, no further
family queries, and still exactly one shutdown. -/
theorem C2_release_exactly_once :
    (∀ fl o, o.nvInit = Ret.success →
      List.count NvCall.shutdown (update fl o).1 = 1) ∧
    (∀ fl o, o.nvInit ≠ Ret.success →
      List.count NvCall.shutdown (update fl o).1 = 0) ∧
    (∀ fl o s, update fl (o.withShutdown s) = update fl o) ∧
    (∀ cs ms e b, pstep (cs, ms, some e) b = (cs, ms, some e)) ∧
    (∀ fl o n c, fl.sysinfo = true → o.nvInit = Ret.success →
      o.deviceGetCount = (n, Ret.success) →
      (∀ i, i < n → (o.deviceGetHandleByIndex i).2 = Ret.success) →
      (o.systemGetDriverVersion).2 = Ret.errOther c →
      (update fl o).2.1 = [] ∧
      (update fl o).2.2 = some ("unable to Get NVIDIA System Driver Version: " ++
        errorString (Ret.errOther c)) ∧
      List.count NvCall.shutdown (update fl o).1 = 1 ∧
      (∀ cl ∈ (update fl o).1, callFam cl = FamTag.session ∨
        cl = NvCall.systemGetDriverVersion)) := by
  refine ⟨shutdown_count_update, ?_, ?_, fun cs ms e b => rfl, ?_⟩
  · intro fl o h
    rw [update, if_pos h]
    simp
  · intro fl o s
    exact update_congr fl rfl rfl rfl (fun _ => ⟨rfl, rfl, rfl⟩)
      (fun _ => ⟨rfl, rfl, rfl⟩) (fun _ => ⟨rfl, rfl, rfl⟩)
      rfl rfl rfl rfl rfl rfl rfl rfl rfl rfl
  · intro fl o n c hsfl hi hcnt hh hdr
    have hen := enumLoop_ok o n 0 (fun j hj => by simpa using hh j hj)
    have hbody : updateBody fl o =
        ((NvCall.deviceGetCount ::
            (List.range n).map (fun j => NvCall.deviceGetHandleByIndex j)) ++
          [NvCall.systemGetDriverVersion], [],
          some ("unable to Get NVIDIA System Driver Version: " ++
            errorString (Ret.errOther c))) := by
      simp [updateBody, hcnt, hen, hsfl, sysInfoBlock, hdr, pstep]
    have hsh := update_shape fl o hi
    refine ⟨?_, ?_, shutdown_count_update fl o hi, ?_⟩
    · rw [hsh, hbody]
    · rw [hsh, hbody]
    · intro cl hcl
      rw [hsh, hbody] at hcl
      simp only [List.mem_append, List.mem_cons, List.mem_singleton,
        List.not_mem_nil, or_false, List.mem_map] at hcl
      rcases hcl with (rfl | ((rfl | ⟨j, _, rfl⟩) | rfl)) | rfl
      · exact Or.inl rfl
      · exact Or.inl rfl
      · exact Or.inl rfl
      · exact Or.inr rfl
      · exact Or.inl rfl

/-- C2 witness: release accounting at concrete oracles — one shutdown on
the healthy poll, shutdown-status non-interference, and one shutdown with
no metrics after a hard driver-version failure. -/
theorem C2_witness :
    List.count NvCall.shutdown (update flagsAll oracleA).1 = 1 ∧
    update flagsAll (oracleA.withShutdown (Ret.errOther 2)) =
      update flagsAll oracleA ∧
    (update flagsAll oracleDriverFail).2.1 = [] ∧
    List.count NvCall.shutdown (update flagsAll oracleDriverFail).1 = 1 :=
  ⟨C2_release_exactly_once.1 flagsAll oracleA rfl,
   C2_release_exactly_once.2.2.1 flagsAll oracleA (Ret.errOther 2),
   (C2_release_exactly_once.2.2.2.2 flagsAll oracleDriverFail 1 3 rfl rfl rfl
     (fun _ _ => rfl) rfl).1,
   (C2_release_exactly_once.2.2.2.2 flagsAll oracleDriverFail 1 3 rfl rfl rfl
     (fun _ _ => rfl) rfl).2.2.1⟩

/-- C6 (confirmed): with all handle resolutions succeeding, enumeration
yields exactly the N devices in index order with no error; every emitted
non-sysinfo observation's first label is the string of an ordinal index
smaller than the device count; a count failure or a handle failure makes
the poll return an error with the partial device list discarded and no
observations at all. -/
theorem C6_enumeration :
    (∀ o n, (∀ j, j < n → (o.deviceGetHandleByIndex j).2 = Ret.success) →
      (enumLoop o 0 n).2.1 =
        (List.range n).map (fun j => (o.deviceGetHandleByIndex j).1) ∧
      (enumLoop o 0 n).2.1.length = n ∧
      (enumLoop o 0 n).2.2 = none) ∧
    (∀ fl o, ∀ m ∈ (update fl o).2.1, m.desc = Desc.sysinfo ∨
      ∃ j, j < o.deviceGetCount.1 ∧ m.labels.head? = some (toString j)) ∧
    (∀ fl o, o.nvInit = Ret.success → o.deviceGetCount.2 ≠ Ret.success →
      (update fl o).2.1 = [] ∧
      (update fl o).2.2 = some ("unable to get device count: " ++
        errorString o.deviceGetCount.2)) ∧
    (∀ o n j, j < n →
      (∀ k, k < j → (o.deviceGetHandleByIndex k).2 = Ret.success) →
      (o.deviceGetHandleByIndex j).2 ≠ Ret.success →
      ∃ e, (enumLoop o 0 n).2.2 = some e) ∧
    (∀ fl o, o.nvInit = Ret.success → o.deviceGetCount.2 = Ret.success →
      (enumLoop o 0 o.deviceGetCount.1).2.2 ≠ none →
      (update fl o).2.1 = [] ∧ ∃ e, (update fl o).2.2 = some e) := by
  refine ⟨?_, ?_, ?_, ?_, ?_⟩
  · intro o n hh
    have hen := enumLoop_ok o n 0 (fun j hj => by simpa using hh j hj)
    refine ⟨?_, ?_, ?_⟩
    · rw [hen]
      simp
    · rw [hen]
      simp
    · rw [hen]
  · intro fl o m hm
    rcases update_metrics_cases fl o m hm with ⟨h, _⟩ | ⟨_, ⟨j, hj, hlab⟩, hnone⟩
    · exact Or.inl (desc_of_sysfam h)
    · have hlen := enumLoop_length o o.deviceGetCount.1 0 hnone
      rw [hlen] at hj
      exact Or.inr ⟨j, hj, hlab⟩
  · intro fl o hi hc
    have hbody : updateBody fl o = ([NvCall.deviceGetCount], [],
        some ("unable to get device count: " ++
          errorString o.deviceGetCount.2)) := by
      simp [updateBody, hc]
    rw [update_shape fl o hi, hbody]
    exact ⟨rfl, rfl⟩
  · intro o n j hj hk hfail
    exact enumLoop_fail o n 0 j hj (fun k hk2 => by simpa using hk k hk2)
      (by simpa using hfail)
  · intro fl o hi hc hne
    obtain ⟨e, he⟩ := Option.ne_none_iff_exists'.mp hne
    have hb1 : (updateBody fl o).2.1 = [] := by
      simp [updateBody, hc, he]
    have hb2 : (updateBody fl o).2.2 = some e := by
      simp [updateBody, hc, he]
    refine ⟨?_, e, ?_⟩
    · rw [update_shape fl o hi]
      exact hb1
    · rw [update_shape fl o hi]
      exact hb2

/-- C6 witness: enumeration facts at concrete oracles — a healthy
1-device enumeration, an index-labeled observation, and discarded output
on count or handle failure. -/
theorem C6_witness :
    (enumLoop oracleA 0 1).2.1 =
      (List.range 1).map (fun j => (oracleA.deviceGetHandleByIndex j).1) ∧
    (enumLoop oracleA 0 1).2.2 = none ∧
    ((⟨Desc.util, 42, ["0", "GPU"]⟩ : Metric).desc = Desc.sysinfo ∨
      ∃ j, j < oracleA.deviceGetCount.1 ∧
        (⟨Desc.util, 42, ["0", "GPU"]⟩ : Metric).labels.head? =
          some (toString j)) ∧
    (update flagsAll oracleCountFail).2.1 = [] ∧
    (∃ e, (enumLoop oracleHandleFail 0 1).2.2 = some e) ∧
    (update flagsAll oracleHandleFail).2.1 = [] :=
  ⟨(C6_enumeration.1 oracleA 1 (fun j _ => rfl)).1,
   (C6_enumeration.1 oracleA 1 (fun j _ => rfl)).2.2,
   C6_enumeration.2.1 flagsAll oracleA ⟨Desc.util, 42, ["0", "GPU"]⟩ (by decide),
   (C6_enumeration.2.2.1 flagsAll oracleCountFail rfl (by decide)).1,
   C6_enumeration.2.2.2.1 oracleHandleFail 1 0 (by decide)
     (fun k hk => absurd hk (Nat.not_lt_zero k)) (by decide),
   (C6_enumeration.2.2.2.2 flagsAll oracleHandleFail rfl rfl (by decide)).1⟩

/-- C7 (confirmed): a disabled family issues no device-access query of
that family, emits no observation of that family, and cannot influence
the poll at all — the poll's entire result is unchanged under arbitrary
replacement of that family's oracle responses, even failing ones. -/
theorem C7_flag_gating :
    (∀ fl o, fl.sysinfo = false →
      (∀ c ∈ (update fl o).1, callFam c ≠ FamTag.sysfam) ∧
      (∀ m ∈ (update fl o).2.1, descFam m.desc ≠ FamTag.sysfam) ∧
      (∀ a b c2, update fl (o.withSysinfoQueries a b c2) = update fl o)) ∧
    (∀ fl o, fl.gpuinfo = false →
      (∀ c ∈ (update fl o).1, callFam c ≠ FamTag.gpufam) ∧
      (∀ m ∈ (update fl o).2.1, descFam m.desc ≠ FamTag.gpufam) ∧
      (∀ u nm b, update fl (o.withGpuinfoQueries u nm b) = update fl o)) ∧
    (∀ fl o, fl.fan = false →
      (∀ c ∈ (update fl o).1, callFam c ≠ FamTag.fanfam) ∧
      (∀ m ∈ (update fl o).2.1, descFam m.desc ≠ FamTag.fanfam) ∧
      (∀ fn mm fs, update fl (o.withFanQueries fn mm fs) = update fl o)) := by
  refine ⟨?_, ?_, ?_⟩
  · intro fl o hs
    refine ⟨?_, ?_, ?_⟩
    · intro c hc
      rcases update_calls_cases fl o c hc with h | ⟨h, hfl⟩ | ⟨h, _⟩ | ⟨h, _⟩ | h
      · simp [h]
      · rw [hs] at hfl
        simp at hfl
      · simp [h]
      · simp [h]
      · simp [h]
    · intro m hm
      rcases update_metrics_cases fl o m hm with ⟨h, hfl⟩ | ⟨h, _, _⟩
      · rw [hs] at hfl
        simp at hfl
      · rcases h with ⟨h1, _⟩ | ⟨h1, _⟩ | h1 <;> simp [h1]
    · intro a b c2
      exact update_congr fl rfl rfl rfl
        (fun h => absurd (hs.symm.trans h) (by decide))
        (fun _ => ⟨rfl, rfl, rfl⟩) (fun _ => ⟨rfl, rfl, rfl⟩)
        rfl rfl rfl rfl rfl rfl rfl rfl rfl rfl
  · intro fl o hg
    refine ⟨?_, ?_, ?_⟩
    · intro c hc
      rcases update_calls_cases fl o c hc with h | ⟨h, _⟩ | ⟨h, hfl⟩ | ⟨h, _⟩ | h
      · simp [h]
      · simp [h]
      · rw [hg] at hfl
        simp at hfl
      · simp [h]
      · simp [h]
    · intro m hm
      rcases update_metrics_cases fl o m hm with ⟨h, _⟩ | ⟨h, _, _⟩
      · simp [h]
      · rcases h with ⟨h1, hfl⟩ | ⟨h1, _⟩ | h1
        · rw [hg] at hfl
          simp at hfl
        · simp [h1]
        · simp [h1]
    · intro u nm b
      exact update_congr fl rfl rfl rfl (fun _ => ⟨rfl, rfl, rfl⟩)
        (fun h => absurd (hg.symm.trans h) (by decide))
        (fun _ => ⟨rfl, rfl, rfl⟩)
        rfl rfl rfl rfl rfl rfl rfl rfl rfl rfl
  · intro fl o hf
    refine ⟨?_, ?_, ?_⟩
    · intro c hc
      rcases update_calls_cases fl o c hc with h | ⟨h, _⟩ | ⟨h, _⟩ | ⟨h, hfl⟩ | h
      · simp [h]
      · simp [h]
      · simp [h]
      · rw [hf] at hfl
        simp at hfl
      · simp [h]
    · intro m hm
      rcases update_metrics_cases fl o m hm with ⟨h, _⟩ | ⟨h, _, _⟩
      · simp [h]
      · rcases h with ⟨h1, _⟩ | ⟨h1, hfl⟩ | h1
        · simp [h1]
        · rw [hf] at hfl
          simp at hfl
        · simp [h1]
    · intro fn mm fs
      exact update_congr fl rfl rfl rfl (fun _ => ⟨rfl, rfl, rfl⟩)
        (fun _ => ⟨rfl, rfl, rfl⟩)
        (fun h => absurd (hf.symm.trans h) (by decide))
        rfl rfl rfl rfl rfl rfl rfl rfl rfl rfl

/-- C7 witness: with all families disabled, replacing any gated family's
responses (even with hard failures) leaves the whole poll unchanged, and
a concrete call of the trace is not a gated-family query. -/
theorem C7_witness :
    callFam NvCall.nvInit ≠ FamTag.sysfam ∧
    update flagsNone (oracleA.withSysinfoQueries ("", Ret.errOther 1)
      (0, Ret.errOther 1) ("", Ret.errOther 1)) = update flagsNone oracleA ∧
    update flagsNone (oracleA.withGpuinfoQueries (fun _ => ("", Ret.errOther 1))
      (fun _ => ("", Ret.errOther 1)) (fun _ => (0, Ret.errOther 1))) =
      update flagsNone oracleA ∧
    update flagsNone (oracleA.withFanQueries (fun _ => (0, Ret.errOther 1))
      (fun _ => (0, 0, Ret.errOther 1)) (fun _ _ => (0, Ret.errOther 1))) =
      update flagsNone oracleA :=
  ⟨(C7_flag_gating.1 flagsNone oracleA rfl).1 NvCall.nvInit (by decide),
   (C7_flag_gating.1 flagsNone oracleA rfl).2.2 _ _ _,
   (C7_flag_gating.2.1 flagsNone oracleA rfl).2.2 _ _ _,
   (C7_flag_gating.2.2 flagsNone oracleA rfl).2.2 _ _ _⟩

end NvGpu
